import Mathlib

/-!
Verification development for the accountability-ledger editorial
decision-and-publication pipeline (backend LLM editor service).

The definitions below are a shallow embedding of the TypeScript source:

* `parseEditorResponse`, `checkForDuplicate`, `getMatchedEntities`,
  `processItem`, `updateIntakeEditorStatus`, `runEditor` are translated
  from `src/backend/src/lib/services/editor.ts`;
* `createRelationship` / `publishRelationship` from
  `src/backend/src/lib/services/relationships.ts`;
* the handler failure rule from
  `src/backend/src/handlers/intake-editor.ts`;
* the persistence services whose source files are not in the snapshot
  (`entities.ts`, `cards.ts`, `sources.ts`, `audit.ts`) are modelled from
  the specification and from the repository's own tests, and say so in
  their doc comments.

JavaScript numbers are modelled as exact decimals (`Dec`: an integer
mantissa over a power-of-ten denominator), with `Option Dec` standing
for a possibly-NaN number (`none` = NaN); every numeric comparison the
pipeline performs gives the same verdict on the decimal value as on the
IEEE double obtained from the same decimal source text, because both
orderings agree on numbers read from short decimal literals, which is
all the pipeline ever compares.  JSON values are the
`JVal` inductive; JavaScript truthiness, `||` defaults, property access
and `ToNumber` coercion are modelled explicitly.  Fallible external
writes are driven by a `FaultPlan` of failure switches; a thrown
JavaScript exception is an `Except.error` carrying the message.
-/

/-- JavaScript whitespace recognised by `String.prototype.trim` (the
ASCII part, which is all the code under verification produces). -/
def jsWs (c : Char) : Bool :=
  c = ' ' ∨ c = '\t' ∨ c = '\n' ∨ c = '\r' ∨ c = '\x0b' ∨ c = '\x0c'

/-- `s.trim()` on a character list: drop whitespace at both ends only. -/
def jsTrimList (cs : List Char) : List Char :=
  ((cs.dropWhile jsWs).reverse.dropWhile jsWs).reverse

/-- `s.trim()` (leading/trailing whitespace only, as in JavaScript). -/
def jsTrim (s : String) : String :=
  ⟨jsTrimList s.toList⟩

/-- `s.toLowerCase()` (ASCII case mapping). -/
def jsLower (s : String) : String :=
  ⟨s.toList.map Char.toLower⟩

/-- `s.toUpperCase()` (ASCII case mapping). -/
def jsUpper (s : String) : String :=
  ⟨s.toList.map Char.toUpper⟩

/-- `s.substring(0, n)` (here: first `n` characters). -/
def jsTake (s : String) (n : Nat) : String :=
  ⟨s.toList.take n⟩

/-- An exact decimal number `m / 10 ^ e`.  Two `Dec`s can denote the
same number with different representations; all comparisons go through
the value-level helpers below, never through structural equality. -/
structure Dec where
  m : ℤ
  e : ℕ
  deriving DecidableEq

/-- `10 ^ n` as an integer. -/
def pow10 (n : ℕ) : ℤ :=
  ((10 ^ n : ℕ) : ℤ)

/-- Value-level strict order on decimals. -/
def decLtb (a b : Dec) : Bool :=
  decide (a.m * pow10 b.e < b.m * pow10 a.e)

/-- Value-level equality test on decimals. -/
def decEqb (a b : Dec) : Bool :=
  decide (a.m * pow10 b.e = b.m * pow10 a.e)

/-- The decimal zero and one. -/
def dec0 : Dec := ⟨0, 0⟩

def dec1 : Dec := ⟨1, 0⟩

/-- A natural number as a decimal. -/
def decOfNat (n : ℕ) : Dec := ⟨(n : ℤ), 0⟩

/-- JSON values as produced by `JSON.parse`.  Objects keep their members
in source order; duplicate keys are resolved by `lookupLast` (last one
wins, as in JavaScript). -/
inductive JVal where
  | null : JVal
  | bool : Bool → JVal
  | num : Dec → JVal
  | str : String → JVal
  | arr : List JVal → JVal
  | obj : List (String × JVal) → JVal

/-- Last binding of key `k` in an object member list (JavaScript object
literals let later duplicate keys overwrite earlier ones). -/
def lookupLast (kvs : List (String × JVal)) (k : String) : Option JVal :=
  kvs.foldl (fun acc p => if p.1 = k then some p.2 else acc) none

/-- JavaScript truthiness of a JSON value (`undefined` is represented as
`Option.none` one level up). -/
def jsTruthy : JVal → Bool
  | .null => false
  | .bool b => b
  | .num q => q.m ≠ 0
  | .str s => s ≠ ""
  | .arr _ => true
  | .obj _ => true

/-- `v || dflt` where `v` may be `undefined` (`none`). -/
def jsOr (v : Option JVal) (dflt : JVal) : JVal :=
  match v with
  | some w => if jsTruthy w then w else dflt
  | none => dflt

/-- Property read `v.k`: `undefined` for a missing key or a primitive
receiver, a `TypeError` for `null`. -/
def jsGet (v : JVal) (k : String) : Except String (Option JVal) :=
  match v with
  | .null => .error "TypeError: Cannot read properties of null"
  | .obj kvs => .ok (lookupLast kvs k)
  | _ => .ok none

/-- `'k' in v`: key-presence test; throws a `TypeError` on a
non-object receiver (arrays are objects and simply lack the key). -/
def jsHasKey (v : JVal) (k : String) : Except String Bool :=
  match v with
  | .obj kvs => .ok ((lookupLast kvs k).isSome)
  | .arr _ => .ok false
  | _ => .error "TypeError: Cannot use 'in' operator"

/-- JavaScript `ToNumber` on a decimal string (the grammar the editor
can meet: optional sign, digits, fraction, exponent; empty/whitespace
is 0; anything else is NaN = `none`).  Hexadecimal and `Infinity`
spellings are not produced by the pipeline and map to `none`. -/
def digitsToNat (ds : List Char) : ℕ :=
  ds.foldl (fun a c => a * 10 + (c.toNat - '0'.toNat)) 0

/-- Shift a decimal by a signed power of ten. -/
def decShift (d : Dec) (ex : ℤ) : Dec :=
  match ex with
  | .ofNat k => ⟨d.m * pow10 k, d.e⟩
  | .negSucc k => ⟨d.m, d.e + (k + 1)⟩

def jsStrToNum (s : String) : Option Dec :=
  let cs := jsTrimList s.toList
  if cs = [] then some dec0 else
  let (sign, cs) : ℤ × List Char :=
    match cs with
    | '-' :: rest => (-1, rest)
    | '+' :: rest => (1, rest)
    | _ => (1, cs)
  let intDigits := cs.takeWhile Char.isDigit
  let cs₁ := cs.drop intDigits.length
  let (fracDigits, cs₂) : List Char × List Char :=
    match cs₁ with
    | '.' :: rest => (rest.takeWhile Char.isDigit, rest.drop (rest.takeWhile Char.isDigit).length)
    | _ => ([], cs₁)
  if intDigits = [] ∧ fracDigits = [] then none else
  let base : Dec := ⟨sign * (digitsToNat (intDigits ++ fracDigits) : ℤ), fracDigits.length⟩
  match cs₂ with
  | [] => some base
  | e :: rest =>
    if e = 'e' ∨ e = 'E' then
      let (esign, rest) : ℤ × List Char :=
        match rest with
        | '-' :: r => (-1, r)
        | '+' :: r => (1, r)
        | _ => (1, rest)
      let eDigits := rest.takeWhile Char.isDigit
      if eDigits = [] ∨ rest.drop eDigits.length ≠ [] then none else
      some (decShift base (esign * (digitsToNat eDigits : ℤ)))
    else none

/-- JavaScript `ToNumber` of a JSON value; `none` is NaN.  Arrays and
objects coerce through `ToPrimitive`; the pipeline never feeds them to
an arithmetic context on a path a claim touches, so they are modelled
as NaN. -/
def jvalToNum : JVal → Option Dec
  | .null => some dec0
  | .bool b => some (if b then dec1 else dec0)
  | .num q => some q
  | .str s => jsStrToNum s
  | .arr _ => none
  | .obj _ => none

/-- JSON whitespace (`ws` in RFC 8259, which `JSON.parse` follows). -/
def jsonWsChar (c : Char) : Bool :=
  c = ' ' ∨ c = '\t' ∨ c = '\n' ∨ c = '\r'

/-- Drop leading JSON whitespace. -/
def skipJsonWs (cs : List Char) : List Char :=
  cs.dropWhile jsonWsChar

/-- Value of a hexadecimal digit. -/
def hexDigitVal (c : Char) : Option Nat :=
  if '0' ≤ c ∧ c ≤ '9' then some (c.toNat - '0'.toNat)
  else if 'a' ≤ c ∧ c ≤ 'f' then some (c.toNat - 'a'.toNat + 10)
  else if 'A' ≤ c ∧ c ≤ 'F' then some (c.toNat - 'A'.toNat + 10)
  else none

/-- Body of a JSON string after the opening quote: returns the decoded
string and the input after the closing quote.  The JSON escapes are
decoded; unescaped control characters are rejected, as `JSON.parse`
does. -/
def parseJStr (acc : List Char) : List Char → Option (String × List Char)
  | [] => none
  | c :: rest =>
    if c = '"' then some (⟨acc.reverse⟩, rest)
    else if c = '\\' then
      match rest with
      | [] => none
      | e :: rest2 =>
        if e = '"' then parseJStr ('"' :: acc) rest2
        else if e = '\\' then parseJStr ('\\' :: acc) rest2
        else if e = '/' then parseJStr ('/' :: acc) rest2
        else if e = 'b' then parseJStr ('\x08' :: acc) rest2
        else if e = 'f' then parseJStr ('\x0c' :: acc) rest2
        else if e = 'n' then parseJStr ('\n' :: acc) rest2
        else if e = 'r' then parseJStr ('\r' :: acc) rest2
        else if e = 't' then parseJStr ('\t' :: acc) rest2
        else if e = 'u' then
          match rest2 with
          | h1 :: h2 :: h3 :: h4 :: rest3 =>
            match hexDigitVal h1, hexDigitVal h2, hexDigitVal h3, hexDigitVal h4 with
            | some a, some b, some c2, some d =>
              parseJStr (Char.ofNat (((a * 16 + b) * 16 + c2) * 16 + d) :: acc) rest3
            | _, _, _, _ => none
          | _ => none
        else none
    else if c.toNat < 0x20 then none
    else parseJStr (c :: acc) rest

/-- A JSON number at the head of the input (RFC 8259 grammar: optional
minus, integer part without leading zeros, optional fraction, optional
exponent), as an exact rational. -/
def parseJNum (cs : List Char) : Option (Dec × List Char) :=
  let (sign, cs1) : ℤ × List Char :=
    match cs with
    | '-' :: r => (-1, r)
    | _ => (1, cs)
  let ds := cs1.takeWhile Char.isDigit
  if ds = [] then none
  else if 1 < ds.length ∧ ds.take 1 = ['0'] then none
  else
    let rest := cs1.drop ds.length
    let (fs, rest2) : List Char × List Char :=
      match rest with
      | '.' :: r => (r.takeWhile Char.isDigit, r.drop (r.takeWhile Char.isDigit).length)
      | _ => ([], rest)
    if rest ≠ rest2 ∧ fs = [] then none
    else
      let base : Dec := ⟨sign * (digitsToNat (ds ++ fs) : ℤ), fs.length⟩
      match rest2 with
      | 'e' :: r => parseJNumExp base r
      | 'E' :: r => parseJNumExp base r
      | _ => some (base, rest2)
where
  parseJNumExp (base : Dec) (r : List Char) : Option (Dec × List Char) :=
    let (esign, r1) : ℤ × List Char :=
      match r with
      | '-' :: r2 => (-1, r2)
      | '+' :: r2 => (1, r2)
      | _ => (1, r)
    let es := r1.takeWhile Char.isDigit
    if es = [] then none
    else
      some (decShift base (esign * (digitsToNat es : ℤ)), r1.drop es.length)

/-- Work items of the JSON value parser: a value to parse, or the
member/element loop of an object/array under construction. -/
inductive JTask where
  | val : List Char → JTask
  | members : List Char → List (String × JVal) → JTask
  | elems : List Char → List JVal → JTask

/-- The JSON value parser, fuelled so that the recursion is structural
(on the fuel).  The fuel only bounds the recursion depth; `jsonParse`
supplies more than any input can consume, so exhaustion never fires on
real input. -/
def parseJ : Nat → JTask → Option (JVal × List Char)
  | 0, _ => none
  | Nat.succ fuel, .val cs =>
    (match skipJsonWs cs with
     | [] => none
     | c :: rest =>
       if c = '{' then
         match skipJsonWs rest with
         | '}' :: rest2 => some (.obj [], rest2)
         | rest2 => parseJ fuel (.members rest2 [])
       else if c = '[' then
         match skipJsonWs rest with
         | ']' :: rest2 => some (.arr [], rest2)
         | rest2 => parseJ fuel (.elems rest2 [])
       else if c = '"' then
         match parseJStr [] rest with
         | some (s, rest2) => some (.str s, rest2)
         | none => none
       else
         match c :: rest with
         | 't' :: 'r' :: 'u' :: 'e' :: rest2 => some (.bool true, rest2)
         | 'f' :: 'a' :: 'l' :: 's' :: 'e' :: rest2 => some (.bool false, rest2)
         | 'n' :: 'u' :: 'l' :: 'l' :: rest2 => some (.null, rest2)
         | cs2 =>
           match parseJNum cs2 with
           | some (q, rest2) => some (.num q, rest2)
           | none => none)
  | Nat.succ fuel, .members cs acc =>
    (match skipJsonWs cs with
     | '"' :: rest =>
       (match parseJStr [] rest with
        | some (k, rest2) =>
          (match skipJsonWs rest2 with
           | ':' :: rest3 =>
             (match parseJ fuel (.val rest3) with
              | some (v, rest4) =>
                (match skipJsonWs rest4 with
                 | ',' :: rest5 => parseJ fuel (.members rest5 (acc ++ [(k, v)]))
                 | '}' :: rest5 => some (.obj (acc ++ [(k, v)]), rest5)
                 | _ => none)
              | none => none)
           | _ => none)
        | none => none)
     | _ => none)
  | Nat.succ fuel, .elems cs acc =>
    (match parseJ fuel (.val cs) with
     | some (v, rest) =>
       (match skipJsonWs rest with
        | ',' :: rest2 => parseJ fuel (.elems rest2 (acc ++ [v]))
        | ']' :: rest2 => some (.arr (acc ++ [v]), rest2)
        | _ => none)
     | none => none)

/-- `JSON.parse`: a single JSON value covering the whole input (up to
surrounding whitespace). -/
def jsonParse (s : String) : Option JVal :=
  let cs := s.toList
  match parseJ (4 * cs.length + 4) (.val cs) with
  | some (v, rest) => if skipJsonWs rest = [] then some v else none
  | none => none

/-- The substring matched by the regular expression `/\{[\s\S]*\}/`
(the editor's "find JSON object" step): from the FIRST `{` to the LAST
`}` of the input, when the latter comes after the former; `none`
otherwise.  Note this is a greedy span, not brace matching. -/
def firstJsonSpan (cs : List Char) : Option (List Char) :=
  let i := cs.findIdx (· = '{')
  let revIdx := cs.reverse.findIdx (· = '}')
  if i < cs.length ∧ revIdx < cs.length ∧ i < cs.length - 1 - revIdx then
    some ((cs.drop i).take (cs.length - 1 - revIdx - i + 1))
  else
    none

/-- The two `replace` calls that strip a Markdown code fence: applied
only when the trimmed response starts with three backticks; removes
the opening fence (with optional `json` tag and newline) and, if
present, a closing fence at the end (with optional preceding
newline). -/
def stripCodeFence (s : String) : String :=
  let cs := (s.toList).drop 3
  let cs := if cs.take 4 = "json".toList then cs.drop 4 else cs
  let cs := match cs with
    | '\n' :: rest => rest
    | _ => cs
  let rcs := cs.reverse
  if rcs.take 3 = "```".toList then
    match rcs.drop 3 with
    | '\n' :: rest => ⟨rest.reverse⟩
    | r2 => ⟨r2.reverse⟩
  else ⟨cs⟩

/-- The editor's decision values. -/
inductive Decision where
  | PUBLISH
  | SKIP
  deriving DecidableEq

/-- A validated editor response (editor.ts `EditorResponse`).  Fields
that the TypeScript type annotates as `string`/arrays but that at
runtime hold whatever the JSON contained are kept as `JVal`;
`confidence` is a JavaScript number (`none` = NaN). -/
structure EditorResponse where
  decision : Decision
  reason : JVal
  confidence : Option Dec
  category : Option JVal
  entities : JVal
  relationships : JVal
  cardSummary : JVal

/-- `Math.min(1, Math.max(0, q))`. -/
def clamp01 (q : Dec) : Dec :=
  if decLtb q dec0 then dec0 else if decLtb dec1 q then dec1 else q

/-- Field read on the parsed JSON root (always an object when
`jsonParse` succeeds on a `{...}` span). -/
def objGet (v : JVal) (k : String) : Option JVal :=
  match v with
  | .obj kvs => lookupLast kvs k
  | _ => none

/-- The trim-then-unfence preprocessing at the top of
`parseEditorResponse`. -/
def preprocessResponse (content : String) : String :=
  let jsonStr := jsTrim content
  if jsonStr.toList.take 3 = "```".toList then stripCodeFence jsonStr else jsonStr

/-- editor.ts `parseEditorResponse`: trim, strip a Markdown fence,
take the `/\{[\s\S]*\}/` span, `JSON.parse` it, and require a
`decision` of `PUBLISH` or `SKIP`; all other fields are defaulted with
`||`.  Any failure (including a thrown parse error) yields `none`. -/
def parseEditorResponse (content : String) : Option EditorResponse :=
  let jsonStr := preprocessResponse content
  match firstJsonSpan jsonStr.toList with
  | none => none
  | some span =>
    match jsonParse ⟨span⟩ with
    | none => none
    | some parsed =>
      match objGet parsed "decision" with
      | some (.str d) =>
        if d = "PUBLISH" ∨ d = "SKIP" then
          some
            { decision := if d = "PUBLISH" then .PUBLISH else .SKIP
              reason := jsOr (objGet parsed "reason") (.str "No reason provided")
              confidence := (jvalToNum (jsOr (objGet parsed "confidence") (.num dec0))).map clamp01
              category := objGet parsed "category"
              entities := jsOr (objGet parsed "entities") (.arr [])
              relationships := jsOr (objGet parsed "relationships") (.arr [])
              cardSummary := jsOr (objGet parsed "cardSummary") (.str "") }
        else none
      | _ => none

/-- Decimal digits of a natural number (fuelled, kernel-reducible). -/
def natToStrAux : ℕ → ℕ → List Char → List Char
  | 0, _, acc => acc
  | Nat.succ fuel, n, acc =>
    if n < 10 then Char.ofNat (48 + n) :: acc
    else natToStrAux fuel (n / 10) (Char.ofNat (48 + n % 10) :: acc)

def natToStr (n : ℕ) : String :=
  ⟨natToStrAux (n + 1) n []⟩

def intToStr (i : ℤ) : String :=
  match i with
  | .ofNat n => natToStr n
  | .negSucc n => "-" ++ natToStr (n + 1)

/-- `Number.prototype.toFixed(2)` for the non-negative decimals the
confidence gate can meet (rounding half away from zero, as the spec of
`toFixed` picks the larger candidate). -/
def toFixed2 (d : Dec) : String :=
  let n : ℤ := (d.m * 200 + pow10 d.e) / (2 * pow10 d.e)
  let i := n / 100
  let f := n % 100
  intToStr i ++ "." ++ (if f < 10 then "0" else "") ++ intToStr f

def leftPadZeros (s : String) (k : ℕ) : String :=
  String.mk (List.replicate (k - s.toList.length) '0') ++ s

/-- Drop factors of ten shared by mantissa and exponent, for printing. -/
def stripTrailingZeros : ℕ → ℕ → ℕ × ℕ
  | m, 0 => (m, 0)
  | m, Nat.succ e => if m % 10 = 0 ∧ m ≠ 0 then stripTrailingZeros (m / 10) e else (m, Nat.succ e)

/-- JavaScript number-to-string (template literal interpolation) for
terminating decimals: the shortest decimal notation, which is what
`String(0.8)` produces for the configuration values under study. -/
def jsNumToString (d : Dec) : String :=
  if d.m = 0 then "0"
  else
    let sgn := if d.m < 0 then "-" else ""
    let (m, e) := stripTrailingZeros d.m.natAbs d.e
    if e = 0 then sgn ++ natToStr m
    else sgn ++ natToStr (m / 10 ^ e) ++ "." ++ leftPadZeros (natToStr (m % 10 ^ e)) e

/-- A decimal as an array index: its exact natural-number value, when
it has one. -/
def decToIdx (d : Dec) : Option ℕ :=
  if 0 ≤ d.m ∧ d.m % pow10 d.e = 0 then some ((d.m / pow10 d.e).toNat) else none

/-- `confidence < threshold` where confidence may be NaN (`none`):
every comparison against NaN is false. -/
def decConfLtb (c : Option Dec) (t : Dec) : Bool :=
  match c with
  | some d => decLtb d t
  | none => false

/-- `confidence.toFixed(2)` where confidence may be NaN. -/
def toFixed2Conf (c : Option Dec) : String :=
  match c with
  | some d => toFixed2 d
  | none => "NaN"

/-- Editor run configuration (config.ts `config.editor`), with the
source defaults: disabled, not dry-run, 20 items, threshold 0.8. -/
structure EditorConfig where
  enabled : Bool
  dryRun : Bool
  maxItemsPerRun : ℕ
  minConfidence : Dec

def defaultEditorConfig : EditorConfig :=
  { enabled := false, dryRun := false, maxItemsPerRun := 20, minConfidence := ⟨8, 1⟩ }

/-- Failure switches for the fallible external writes; each `true`
makes the corresponding call throw, modelling a storage/transport
error.  Reads and the remaining writes are not given switches because
no claim turns on their failure. -/
structure FaultPlan where
  snapshotFails : Bool
  createRelFails : Bool
  publishCardFails : Bool
  publishRelFails : Bool
  updateIntakeFails : Bool
  auditFails : Bool

def noFaults : FaultPlan :=
  { snapshotFails := false, createRelFails := false, publishCardFails := false,
    publishRelFails := false, updateIntakeFails := false, auditFails := false }

/-- An organisational entity (shared `Entity`). -/
structure Entity where
  entityId : String
  name : String
  entityType : String
  aliases : List String
  deriving DecidableEq

/-- A citable source record. -/
structure Source where
  sourceId : String
  title : String
  url : String
  publisher : String
  docType : String
  excerpt : Option String
  verificationStatus : String
  deriving DecidableEq

/-- A claim card.  `summary` is a `JVal` because the editor copies the
LLM's `cardSummary` field into it unvalidated. -/
structure Card where
  cardId : String
  title : String
  claim : String
  summary : JVal
  category : String
  entityIds : List String
  eventDate : String
  sourceRefs : List String
  evidenceStrength : String
  tags : List String
  status : String

/-- A typed relationship between two entities. -/
structure Relationship where
  relationshipId : String
  fromEntityId : String
  toEntityId : String
  relType : String
  description : Option JVal
  sourceRefs : List String
  status : String

/-- The decision audit record stored on the intake item
(editor.ts local `EditorDecision`). -/
structure EditorDecision where
  decision : Decision
  reason : JVal
  confidence : Option Dec
  decidedAt : String
  runId : String

/-- An intake-table row, reduced to the fields this pipeline reads or
writes. -/
structure IntakeRow where
  intakeId : String
  status : String
  editorStatus : Option String
  editorDecision : Option EditorDecision
  reviewedAt : Option String
  reviewedBy : Option String
  promotedCardId : Option String
  promotedSourceId : Option String

/-- The audit event emitted on a successful publish. -/
structure AuditEvent where
  action : String
  resourceType : String
  resourceId : String
  userId : String
  cardId : String
  sourceId : String
  entityIds : List String
  relationshipIds : List String
  confidence : Option Dec
  runId : String
  automated : Bool

/-- A suggested entity on an intake item (the two fields
`getMatchedEntities` reads). -/
structure SuggestedEntity where
  extractedName : String
  matchedEntityId : Option String

/-- An intake item as handed to `processItem`. -/
structure IntakeItem where
  intakeId : String
  title : String
  publisher : String
  publishedAt : String
  canonicalUrl : String
  summary : Option String
  extractedSummary : Option String
  suggestedEntities : List SuggestedEntity
  suggestedTags : List String

/-- The persistent state the pipeline reads and writes: the backing
tables as lists plus a fresh-id counter and the (constant) clock.
`cards` is kept most-recent-first, matching the recency-ordered reads
the code performs. -/
structure World where
  entities : List Entity
  cards : List Card
  sources : List Source
  rels : List Relationship
  intake : List IntakeRow
  audit : List AuditEvent
  snapshots : List (String × String)
  nextId : ℕ
  now : String

/-- A fresh identifier (stands for `ulid()`). -/
def genId (w : World) : String × World :=
  ("ID" ++ natToStr w.nextId, { w with nextId := w.nextId + 1 })

/-- Modelled from the spec: the Entity Directory lookup (`entities.ts`
is not in the source snapshot).  A missing id raises a NotFound error,
the semantics established by the repository's own tests (the
relationships list test mocks `getEntity` as rejecting for unknown
ids) and by every caller (`summary.ts` dereferences the result
directly, `relationships.ts` and editor.ts line 309 wrap calls in
try/catch). -/
def getEntity (w : World) (id : String) : Except String Entity :=
  match w.entities.find? (fun e => e.entityId = id) with
  | some e => .ok e
  | none => .error ("Entity not found: " ++ id)

/-- Modelled from the spec: Entity Directory name normalization
(case/punctuation-insensitive matching). -/
def normalizeName (s : String) : String :=
  ⟨(s.toList.map Char.toLower).filter (fun c => c.isAlphanum ∨ c = ' ')⟩

/-- Modelled from the spec: Entity Directory lookup by normalised
name (`entities.ts` is not in the source snapshot). -/
def findEntityByName (w : World) (name : String) : Option Entity :=
  w.entities.find? (fun e => normalizeName e.name = normalizeName name)

/-- Modelled from the spec: Entity Directory creation (`entities.ts`
is not in the source snapshot): appends a new entity under a fresh
id. -/
def createEntity (w : World) (name entityType : String) : Entity × World :=
  let (id, w') := genId w
  let ent : Entity := { entityId := id, name := name, entityType := entityType, aliases := [] }
  (ent, { w' with entities := w'.entities ++ [ent] })

/-- Modelled from the spec: Source Registry creation (`sources.ts` is
not in the source snapshot): a new source record under a fresh id. -/
def createSource (w : World) (title url docType publisher : String) (excerpt : Option String) :
    Source × World :=
  let (id, w') := genId w
  let src : Source :=
    { sourceId := id, title := title, url := url, publisher := publisher,
      docType := docType, excerpt := excerpt, verificationStatus := "PENDING" }
  (src, { w' with sources := w'.sources ++ [src] })

/-- Modelled from the spec: the content-snapshot capture (`sources.ts`
is not in the source snapshot), an external fetch that can fail; the
caller logs and swallows the failure. -/
def captureHtmlSnapshot (plan : FaultPlan) (w : World) (sourceId url : String) :
    Except String Unit × World :=
  if plan.snapshotFails then (.error "Failed to capture HTML snapshot", w)
  else (.ok (), { w with snapshots := w.snapshots ++ [(sourceId, url)] })

/-- Modelled from the spec: `listCards({limit:100}, true)` (`cards.ts`
is not in the source snapshot): the bounded recent window of
already-published claim records, most recent first. -/
def listCards (w : World) (lim : ℕ) : List Card :=
  (w.cards.filter (fun c => c.status = "PUBLISHED")).take lim

/-- Modelled from the spec: Claim Store card creation (`cards.ts` is
not in the source snapshot): a new DRAFT card under a fresh id,
prepended so the card list stays most-recent-first. -/
def createCard (w : World) (title claim : String) (summary : JVal) (category : String)
    (entityIds : List String) (eventDate : String) (sourceRefs : List String)
    (tags : List String) : Card × World :=
  let (id, w') := genId w
  let card : Card :=
    { cardId := id, title := title, claim := claim, summary := summary, category := category,
      entityIds := entityIds, eventDate := eventDate, sourceRefs := sourceRefs,
      evidenceStrength := "HIGH", tags := tags, status := "DRAFT" }
  (card, { w' with cards := card :: w'.cards })

/-- Modelled from the spec: Claim Store publication (`cards.ts` is not
in the source snapshot), shaped after the in-repo
`publishRelationship`: the card must be DRAFT with at least one source
reference.  The spec's end-to-end scenario publishes immediately after
source creation, so no verification gating is modelled. -/
def publishCard (plan : FaultPlan) (w : World) (cardId : String) : Except String Unit × World :=
  match w.cards.find? (fun c => c.cardId = cardId) with
  | none => (.error ("Card not found: " ++ cardId), w)
  | some c =>
    if c.status ≠ "DRAFT" then (.error "Only DRAFT cards can be published", w)
    else if c.sourceRefs = [] then
      (.error "At least one source reference is required to publish", w)
    else if plan.publishCardFails then (.error "DynamoDB putItem failed", w)
    else
      let newCards :=
        w.cards.map (fun c2 => if c2.cardId = cardId then { c2 with status := "PUBLISHED" } else c2)
      (.ok (), { w with cards := newCards })

/-- relationships.ts `createRelationship`: validates both endpoint
entities exist (a missing one raises), then writes a DRAFT
relationship. -/
def createRelationship (plan : FaultPlan) (w : World) (fromId toId relType : String)
    (description : Option JVal) (sourceRefs : List String) :
    Except String Relationship × World :=
  match getEntity w fromId with
  | .error e => (.error e, w)
  | .ok _ =>
    match getEntity w toId with
    | .error e => (.error e, w)
    | .ok _ =>
      if plan.createRelFails then (.error "DynamoDB putItem failed", w)
      else
        let (id, w') := genId w
        let rel : Relationship :=
          { relationshipId := id, fromEntityId := fromId, toEntityId := toId,
            relType := relType, description := description, sourceRefs := sourceRefs,
            status := "DRAFT" }
        (.ok rel, { w' with rels := w'.rels ++ [rel] })

/-- relationships.ts `publishRelationship`: DRAFT with at least one
source reference, else a ValidationError. -/
def publishRelationship (plan : FaultPlan) (w : World) (relId : String) :
    Except String Unit × World :=
  match w.rels.find? (fun r => r.relationshipId = relId) with
  | none => (.error ("Relationship not found: " ++ relId), w)
  | some r =>
    if r.status ≠ "DRAFT" then (.error "Only DRAFT relationships can be published", w)
    else if r.sourceRefs = [] then
      (.error "At least one source reference is required to publish", w)
    else if plan.publishRelFails then (.error "DynamoDB putItem failed", w)
    else
      let newRels :=
        w.rels.map (fun r2 => if r2.relationshipId = relId then { r2 with status := "PUBLISHED" } else r2)
      (.ok (), { w with rels := newRels })

/-- Modelled from the spec: the audit log write (`audit.ts` is not in
the source snapshot). -/
def logAuditEvent (plan : FaultPlan) (w : World) (ev : AuditEvent) :
    Except String Unit × World :=
  if plan.auditFails then (.error "Failed to write audit event", w)
  else (.ok (), { w with audit := w.audit ++ [ev] })

/-- editor.ts `updateIntakeEditorStatus`: scan for the intake row by
id (throwing when absent), then overwrite it with the editor status,
decision record and, on APPROVED, promotion fields. -/
def updateIntakeEditorStatus (plan : FaultPlan) (w : World) (intakeId editorStatus : String)
    (decision : EditorDecision) (cardId? sourceId? : Option String) :
    Except String Unit × World :=
  match w.intake.find? (fun r => r.intakeId = intakeId) with
  | none => (.error ("Intake item " ++ intakeId ++ " not found"), w)
  | some _ =>
    if plan.updateIntakeFails then (.error "DynamoDB putItem failed", w)
    else
      let newIntake := w.intake.map (fun r =>
        if r.intakeId = intakeId then
          { r with
            editorStatus := some editorStatus
            editorDecision := some decision
            reviewedAt := some w.now
            reviewedBy := some "llm-editor"
            status := if editorStatus = "APPROVED" then "PROMOTED" else r.status
            promotedCardId := if editorStatus = "APPROVED" then cardId? else r.promotedCardId
            promotedSourceId := if editorStatus = "APPROVED" then sourceId? else r.promotedSourceId }
        else r)
      (.ok (), { w with intake := newIntake })

/-- An entity already matched to the item's suggestions, as passed to
the prompt and the by-index resolution. -/
structure MatchedEntity where
  entityId : String
  name : String
  entityType : String
  deriving DecidableEq

/-- editor.ts `getMatchedEntities` (loop body): try the pre-matched
id (a throw means the entity no longer exists and is swallowed), fall
back to lookup by extracted name, and de-duplicate by id. -/
def getMatchedEntitiesAux (w : World) :
    List SuggestedEntity → List String → List MatchedEntity → List MatchedEntity
  | [], _, acc => acc
  | s :: rest, seen, acc =>
    let byId : Option Entity :=
      match s.matchedEntityId with
      | some mid =>
        (match getEntity w mid with
         | .ok e => some e
         | .error _ => none)
      | none => none
    let ent? : Option Entity :=
      match byId with
      | some e => some e
      | none => if s.extractedName ≠ "" then findEntityByName w s.extractedName else none
    match ent? with
    | some e =>
      if seen.contains e.entityId then getMatchedEntitiesAux w rest seen acc
      else
        getMatchedEntitiesAux w rest (e.entityId :: seen)
          (acc ++ [{ entityId := e.entityId, name := e.name, entityType := e.entityType }])
    | none => getMatchedEntitiesAux w rest seen acc

def getMatchedEntities (w : World) (suggestions : List SuggestedEntity) : List MatchedEntity :=
  getMatchedEntitiesAux w suggestions [] []

/-- editor.ts `checkForDuplicate`: over the recent published window,
flag an exact match of the lowercased-and-trimmed titles, or a shared
entity together with equal 50-character title prefixes. -/
def checkForDuplicate (w : World) (title : String) (entityIds : List String) : Bool :=
  let recentCards := listCards w 100
  let normalizedTitle := jsTrim (jsLower title)
  recentCards.any (fun card =>
    let cardTitle := jsTrim (jsLower card.title)
    cardTitle == normalizedTitle ||
      (card.entityIds.any (fun id => entityIds.contains id) &&
        jsTake cardTitle 50 == jsTake normalizedTitle 50))

/-- editor.ts lines 438-451: the free-text-to-`EntityType` lookup
table with its `'CORPORATION'` default arm. -/
def mapEntityType (t : String) : String :=
  let u := jsUpper t
  if u = "CORPORATION" then "CORPORATION"
  else if u = "GOVERNMENT_AGENCY" then "AGENCY"
  else if u = "AGENCY" then "AGENCY"
  else if u = "INDIVIDUAL" then "PERSON"
  else if u = "PERSON" then "PERSON"
  else if u = "INDIVIDUAL_PUBLIC_OFFICIAL" then "INDIVIDUAL_PUBLIC_OFFICIAL"
  else if u = "NON_PROFIT" then "NONPROFIT"
  else if u = "NONPROFIT" then "NONPROFIT"
  else if u = "VENDOR" then "VENDOR"
  else if u = "POLITICAL_ENTITY" then "AGENCY"
  else "CORPORATION"

/-- editor.ts lines 559-582: the free-text-to-`RelationshipType`
lookup table with its `'OTHER'` default arm. -/
def mapRelType (t : String) : String :=
  let u := jsUpper t
  if u = "OWNS" then "OWNS"
  else if u = "CONTROLS" then "CONTROLS"
  else if u = "SUBSIDIARY_OF" then "SUBSIDIARY_OF"
  else if u = "PARENT_OF" then "PARENT_OF"
  else if u = "AFFILIATED" then "AFFILIATED"
  else if u = "AFFILIATED_WITH" then "AFFILIATED"
  else if u = "CONTRACTOR_TO" then "CONTRACTOR_TO"
  else if u = "CONTRACTS_WITH" then "CONTRACTOR_TO"
  else if u = "REGULATED_BY" then "REGULATED_BY"
  else if u = "REGULATES" then "REGULATED_BY"
  else if u = "LOBBIED_BY" then "LOBBIED_BY"
  else if u = "LOBBIES" then "LOBBIED_BY"
  else if u = "ACQUIRED" then "ACQUIRED"
  else if u = "DIVESTED" then "DIVESTED"
  else if u = "JV_PARTNER" then "JV_PARTNER"
  else if u = "BOARD_INTERLOCK" then "BOARD_INTERLOCK"
  else if u = "FINED_BY" then "REGULATED_BY"
  else if u = "SUED_BY" then "OTHER"
  else if u = "SUED" then "OTHER"
  else if u = "SETTLED_WITH" then "OTHER"
  else if u = "INVESTIGATED_BY" then "REGULATED_BY"
  else "OTHER"

/-- Modelled from the spec: `Object.values(CardCategory)` (the shared
enums file is not in the source snapshot); the members evidenced by
the repository's tests (`labor`, `consumer`, `fraud`) plus the
catch-all `other`. -/
def validCategories : List String := ["fraud", "labor", "consumer", "other"]

/-- editor.ts lines 531-535: `editorResponse.category?.toLowerCase()`
validated against the category vocabulary, defaulting to `other`; a
non-string, non-null category throws (uncaught). -/
def resolveCategory (c? : Option JVal) : Except String String :=
  match c? with
  | none => .ok "other"
  | some .null => .ok "other"
  | some (.str s) =>
    let raw := jsLower s
    .ok (if raw ≠ "" ∧ validCategories.contains raw then raw else "other")
  | some _ => .error "TypeError: editorResponse.category.toLowerCase is not a function"

/-- `for (const x of v)`: arrays iterate elements, strings iterate
their characters, anything else throws. -/
def asIterable (v : JVal) : Except String (List JVal) :=
  match v with
  | .arr xs => .ok xs
  | .str s => .ok (s.toList.map (fun c => JVal.str ⟨[c]⟩))
  | _ => .error "TypeError: value is not iterable"

/-- Outcome of using a JSON value as the `matchedIndex` into the
matched-entities array. -/
inductive IdxOutcome where
  | push : ℕ → IdxOutcome
  | skip : IdxOutcome
  | crash : IdxOutcome

/-- `index >= 0 && index < len` followed by `arr[index].entityId`:
a NaN or out-of-range index fails the bounds test (warn-and-skip); an
in-range non-integer index reads `undefined` and the `.entityId`
access throws.  Indices are modelled for numeric values. -/
def arrIndexOutcome (idxVal : JVal) (len : ℕ) : IdxOutcome :=
  match jvalToNum idxVal with
  | none => .skip
  | some d =>
    if decLtb d dec0 then .skip
    else if decLtb d (decOfNat len) then
      match decToIdx d with
      | some i => .push i
      | none => .crash
    else .skip

/-- `resolvedEntityIds[idx]`: element at a numeric integer index,
`undefined` otherwise. -/
def jsArrLookup (xs : List String) (idx : Option JVal) : Option String :=
  match idx with
  | some (.num d) =>
    (match decToIdx d with
     | some i => xs.get? i
     | none => none)
  | _ => none

/-- editor.ts lines 406-464: the entity-resolution loop.  Each
reference is dispatched on key presence (`matchedIndex` / `entityId` /
`create`); a `matchedIndex` out of range or a missing `create` branch
silently skips; a `getEntity` throw for a by-id reference propagates
out of the loop (there is no try/catch around it); in dry-run the
`create` arm's guard `'create' in entityRef && !dryRun` fails, so the
reference is ignored without a name lookup. -/
def resolveEntities (dryRun : Bool) (matched : List MatchedEntity) :
    List JVal → List String → World → (Except String (List String)) × World
  | [], acc, w => (.ok acc, w)
  | ref :: rest, acc, w =>
    match jsHasKey ref "matchedIndex" with
    | .error e => (.error e, w)
    | .ok true =>
      (match objGet ref "matchedIndex" with
       | some idxVal =>
         (match arrIndexOutcome idxVal matched.length with
          | .push i =>
            (match matched.get? i with
             | some me => resolveEntities dryRun matched rest (acc ++ [me.entityId]) w
             | none => resolveEntities dryRun matched rest acc w)
          | .skip => resolveEntities dryRun matched rest acc w
          | .crash => (.error "TypeError: Cannot read properties of undefined (reading entityId)", w))
       | none => resolveEntities dryRun matched rest acc w)
    | .ok false =>
      match jsHasKey ref "entityId" with
      | .error e => (.error e, w)
      | .ok true =>
        (match objGet ref "entityId" with
         | some (.str id) =>
           (match getEntity w id with
            | .error e => (.error e, w)
            | .ok _ => resolveEntities dryRun matched rest (acc ++ [id]) w)
         | _ => (.error "Entity not found: [non-string id]", w))
      | .ok false =>
        match jsHasKey ref "create" with
        | .error e => (.error e, w)
        | .ok true =>
          if dryRun then resolveEntities dryRun matched rest acc w
          else
            (match objGet ref "create" with
             | some (.obj ckvs) =>
               (match lookupLast ckvs "name", lookupLast ckvs "type" with
                | some (.str nm), some (.str ty) =>
                  (match findEntityByName w nm with
                   | some e => resolveEntities dryRun matched rest (acc ++ [e.entityId]) w
                   | none =>
                     let ew := createEntity w nm (mapEntityType ty)
                     resolveEntities dryRun matched rest (acc ++ [ew.1.entityId]) ew.2)
                | _, _ => (.error "TypeError: invalid create payload", w))
             | some _ => (.error "TypeError: invalid create payload", w)
             | none => resolveEntities dryRun matched rest acc w)
        | .ok false => resolveEntities dryRun matched rest acc w

/-- editor.ts lines 584-610: the relationship-creation loop.  Both
endpoint lookups must be truthy; the type mapping and the
`createRelationship` call sit inside a per-relationship try/catch, so
their failures skip that relationship only; reading an index off a
`null` element throws out of the loop. -/
def createRelLoop (plan : FaultPlan) (resolved : List String) (srcId : String) :
    List JVal → List String → World → (Except String (List String)) × World
  | [], acc, w => (.ok acc, w)
  | relSpec :: rest, acc, w =>
    match jsGet relSpec "fromEntityIndex" with
    | .error e => (.error e, w)
    | .ok fromIdxVal =>
      match jsGet relSpec "toEntityIndex" with
      | .error e => (.error e, w)
      | .ok toIdxVal =>
        match jsArrLookup resolved fromIdxVal, jsArrLookup resolved toIdxVal with
        | some f, some t =>
          if f ≠ "" ∧ t ≠ "" then
            match objGet relSpec "type" with
            | some (.str ty) =>
              (match createRelationship plan w f t (mapRelType ty)
                  (objGet relSpec "description") [srcId] with
               | (.ok rel, w') =>
                 createRelLoop plan resolved srcId rest (acc ++ [rel.relationshipId]) w'
               | (.error _, w') => createRelLoop plan resolved srcId rest acc w')
            | _ => createRelLoop plan resolved srcId rest acc w
          else createRelLoop plan resolved srcId rest acc w
        | _, _ => createRelLoop plan resolved srcId rest acc w

/-- editor.ts lines 624-634: publish each created relationship,
logging and swallowing individual failures. -/
def publishRelLoop (plan : FaultPlan) : List String → World → World
  | [], w => w
  | relId :: rest, w =>
    let (_, w') := publishRelationship plan w relId
    publishRelLoop plan rest w'

/-- editor.ts lines 382-391: the confidence gate, rewriting a PUBLISH
decision below the configured threshold to SKIP in place, with a
reason recording the measured confidence (`toFixed(2)`) and the
threshold. -/
def applyConfidenceGate (cfg : EditorConfig) (r : EditorResponse) : EditorResponse :=
  if r.decision = .PUBLISH ∧ decConfLtb r.confidence cfg.minConfidence then
    { r with
      decision := .SKIP
      reason := .str ("Confidence " ++ toFixed2Conf r.confidence ++ " below threshold "
        ++ jsNumToString cfg.minConfidence) }
  else r

/-- The three per-item outcomes. -/
inductive RDecision where
  | PUBLISH
  | SKIP
  | ERROR
  deriving DecidableEq

/-- editor.ts `EditorItemResult`. -/
structure EditorItemResult where
  intakeId : String
  decision : RDecision
  reason : JVal
  cardId : Option String
  entityIds : Option (List String)
  relationshipIds : Option (List String)

/-- The ERROR result produced by `processItem`'s outer catch. -/
def errorResult (intakeId msg : String) : EditorItemResult :=
  { intakeId := intakeId, decision := .ERROR, reason := .str msg,
    cardId := none, entityIds := none, relationshipIds := none }

/-- A SKIP result (no identifiers). -/
def skipResult (intakeId : String) (reason : JVal) : EditorItemResult :=
  { intakeId := intakeId, decision := .SKIP, reason := reason,
    cardId := none, entityIds := none, relationshipIds := none }

/-- `fallbackSummary || ''` over possibly-undefined strings. -/
def jsOrS (v : Option String) (dflt : JVal) : JVal :=
  match v with
  | some s => if s ≠ "" then .str s else dflt
  | none => dflt

/-- `item.publishedAt.split('T')[0]`. -/
def eventDateOf (publishedAt : String) : String :=
  ⟨publishedAt.toList.takeWhile (fun c => c ≠ 'T')⟩

/-- editor.ts `processItem`: the per-item pipeline.  The LLM transport
is external, so the raw response text is an input; the surrounding
try/catch is the propagation of `Except.error` into an ERROR result;
state mutated before a throw stays mutated (no rollback). -/
def processItem (cfg : EditorConfig) (plan : FaultPlan) (item : IntakeItem) (content : String)
    (runId : String) (dryRun : Bool) (w : World) : EditorItemResult × World :=
  let matched := getMatchedEntities w item.suggestedEntities
  match parseEditorResponse content with
  | none => (errorResult item.intakeId "Failed to parse editor response", w)
  | some er0 =>
    let gated := applyConfidenceGate cfg er0
    let decisionRec : EditorDecision :=
      { decision := gated.decision, reason := gated.reason, confidence := gated.confidence,
        decidedAt := w.now, runId := runId }
    if gated.decision = .SKIP then
      if dryRun then (skipResult item.intakeId gated.reason, w)
      else
        match updateIntakeEditorStatus plan w item.intakeId "SKIPPED" decisionRec none none with
        | (.ok _, w1) => (skipResult item.intakeId gated.reason, w1)
        | (.error msg, w1) => (errorResult item.intakeId msg, w1)
    else
      match asIterable gated.entities with
      | .error msg => (errorResult item.intakeId msg, w)
      | .ok refs =>
        match resolveEntities dryRun matched refs [] w with
        | (.error msg, w1) => (errorResult item.intakeId msg, w1)
        | (.ok resolved, w1) =>
          if resolved = [] then
            if dryRun then (skipResult item.intakeId (.str "No entities could be resolved"), w1)
            else
              let dRec := { decisionRec with decision := Decision.SKIP, reason := JVal.str "No entities could be resolved" }
              match updateIntakeEditorStatus plan w1 item.intakeId "SKIPPED" dRec none none with
              | (.ok _, w2) => (skipResult item.intakeId (.str "No entities could be resolved"), w2)
              | (.error msg, w2) => (errorResult item.intakeId msg, w2)
          else
            if checkForDuplicate w1 item.title resolved then
              if dryRun then (skipResult item.intakeId (.str "Duplicate card detected"), w1)
              else
                let dRec := { decisionRec with decision := Decision.SKIP, reason := JVal.str "Duplicate card detected" }
                match updateIntakeEditorStatus plan w1 item.intakeId "SKIPPED" dRec none none with
                | (.ok _, w2) => (skipResult item.intakeId (.str "Duplicate card detected"), w2)
                | (.error msg, w2) => (errorResult item.intakeId msg, w2)
            else if dryRun then
              ({ intakeId := item.intakeId, decision := .PUBLISH,
                 reason := .str ("[DRY RUN] Would publish with " ++ natToStr resolved.length
                   ++ " entities"),
                 cardId := none, entityIds := some resolved, relationshipIds := none }, w1)
            else
              let (source, w2) :=
                createSource w1 item.title item.canonicalUrl "HTML" item.publisher item.summary
              let w3 :=
                match captureHtmlSnapshot plan w2 source.sourceId item.canonicalUrl with
                | (.ok _, w') => w'
                | (.error _, w') => w'
              match resolveCategory gated.category with
              | .error msg => (errorResult item.intakeId msg, w3)
              | .ok category =>
                let cardSummary :=
                  if jsTruthy gated.cardSummary then gated.cardSummary
                  else jsOrS item.extractedSummary (jsOrS item.summary (.str ""))
                let (card, w4) :=
                  createCard w3 item.title item.title cardSummary category resolved
                    (eventDateOf item.publishedAt) [source.sourceId] item.suggestedTags
                match asIterable gated.relationships with
                | .error msg => (errorResult item.intakeId msg, w4)
                | .ok relSpecs =>
                  match createRelLoop plan resolved source.sourceId relSpecs [] w4 with
                  | (.error msg, w5) => (errorResult item.intakeId msg, w5)
                  | (.ok relIds, w5) =>
                    let (_, w6) := publishCard plan w5 card.cardId
                    let w7 := publishRelLoop plan relIds w6
                    match updateIntakeEditorStatus plan w7 item.intakeId "APPROVED" decisionRec
                        (some card.cardId) (some source.sourceId) with
                    | (.error msg, w8) => (errorResult item.intakeId msg, w8)
                    | (.ok _, w8) =>
                      match logAuditEvent plan w8
                          { action := "PROMOTE_INTAKE", resourceType := "intake",
                            resourceId := item.intakeId, userId := "llm-editor",
                            cardId := card.cardId, sourceId := source.sourceId,
                            entityIds := resolved, relationshipIds := relIds,
                            confidence := gated.confidence, runId := runId,
                            automated := true } with
                      | (.error msg, w9) => (errorResult item.intakeId msg, w9)
                      | (.ok _, w9) =>
                        ({ intakeId := item.intakeId, decision := .PUBLISH,
                           reason := gated.reason, cardId := some card.cardId,
                           entityIds := some resolved,
                           relationshipIds := some relIds }, w9)

/-- One run input: an eligible intake item together with the LLM's
raw response for it (the transport being an external collaborator). -/
structure RunItem where
  item : IntakeItem
  response : String

/-- editor.ts `runEditor` loop body: process each item sequentially;
`processItem` is total, so an item's error never halts the loop. -/
def runEditorLoop (cfg : EditorConfig) (plan : FaultPlan) (runId : String) :
    List RunItem → World → List EditorItemResult × World
  | [], w => ([], w)
  | ri :: rest, w =>
    let (res, w') := processItem cfg plan ri.item ri.response runId cfg.dryRun w
    let (more, w'') := runEditorLoop cfg plan runId rest w'
    (res :: more, w'')

/-- editor.ts `EditorRunSummary` (timestamps omitted: the clock is
constant in the model). -/
structure EditorRunSummary where
  runId : String
  processed : ℕ
  published : ℕ
  skipped : ℕ
  errors : ℕ
  dryRun : Bool
  results : List EditorItemResult

/-- editor.ts `runEditor`: the kill switch short-circuits to an empty
summary; otherwise every eligible item is processed and the outcomes
are tallied.  The eligible list and each item's LLM response are
inputs (eligibility selection and prompt loading read external
state). -/
def runEditor (cfg : EditorConfig) (plan : FaultPlan) (runId : String) (items : List RunItem)
    (w : World) : EditorRunSummary × World :=
  if cfg.enabled then
    let (results, w') := runEditorLoop cfg plan runId items w
    ({ runId := runId, processed := items.length,
       published := results.countP (fun r => r.decision == .PUBLISH),
       skipped := results.countP (fun r => r.decision == .SKIP),
       errors := results.countP (fun r => r.decision == .ERROR),
       dryRun := cfg.dryRun, results := results }, w')
  else
    ({ runId := runId, processed := 0, published := 0, skipped := 0, errors := 0,
       dryRun := cfg.dryRun, results := [] }, w)

/-- intake-editor.ts lines 55-59: the handler throws (marking the
scheduled invocation failed) exactly when there was at least one error
and every processed item errored. -/
def handlerMarksRunFailed (s : EditorRunSummary) : Prop :=
  0 < s.errors ∧ s.errors = s.processed

/-! ## Sample fixtures used by the concrete theorems and witnesses -/

set_option maxRecDepth 10000

def acmeEntity : Entity :=
  { entityId := "E1", name := "Acme Corp", entityType := "CORPORATION", aliases := [] }

def ftcEntity : Entity :=
  { entityId := "E2", name := "FTC", entityType := "AGENCY", aliases := [] }

def sampleRow : IntakeRow :=
  { intakeId := "I1", status := "NEW", editorStatus := none, editorDecision := none,
    reviewedAt := none, reviewedBy := none, promotedCardId := none, promotedSourceId := none }

def baseWorld : World :=
  { entities := [acmeEntity, ftcEntity], cards := [], sources := [], rels := [],
    intake := [sampleRow], audit := [], snapshots := [], nextId := 0, now := "T0" }

def sampleItem : IntakeItem :=
  { intakeId := "I1", title := "FTC Fines Acme Corp", publisher := "Wire",
    publishedAt := "2024-05-01T00:00:00Z", canonicalUrl := "https://x.example/1",
    summary := some "sum", extractedSummary := some "ext",
    suggestedEntities := [], suggestedTags := [] }

/-- The default configuration with the kill switch on (a live run). -/
def editorOn : EditorConfig := { defaultEditorConfig with enabled := true }

/-- Whitespace removed entirely (used only to STATE that two titles
are identical up to whitespace). -/
def dropWs (s : String) : String :=
  ⟨s.toList.filter (fun c => !(jsWs c))⟩

def respPublish95 : String :=
  "\x7b\"decision\":\"PUBLISH\",\"reason\":\"ok\",\"confidence\":0.95,\"entities\":[\x7b\"entityId\":\"E1\"\x7d,\x7b\"entityId\":\"E2\"\x7d],\"relationships\":[\x7b\"fromEntityIndex\":0,\"toEntityIndex\":1,\"type\":\"FINED_BY\"\x7d],\"cardSummary\":\"S\"\x7d"

def respPublish79 : String :=
  "\x7b\"decision\":\"PUBLISH\",\"reason\":\"ok\",\"confidence\":0.79,\"entities\":[\x7b\"entityId\":\"E1\"\x7d]\x7d"

def respPublish80 : String :=
  "\x7b\"decision\":\"PUBLISH\",\"reason\":\"ok\",\"confidence\":0.8,\"entities\":[\x7b\"entityId\":\"E1\"\x7d]\x7d"

def respMissingEntity : String :=
  "\x7b\"decision\":\"PUBLISH\",\"confidence\":0.9,\"entities\":[\x7b\"entityId\":\"E404\"\x7d]\x7d"

def respCreateAcme : String :=
  "\x7b\"decision\":\"PUBLISH\",\"confidence\":0.9,\"entities\":[\x7b\"create\":\x7b\"name\":\"Acme Corp\",\"type\":\"CORPORATION\"\x7d\x7d]\x7d"

def respCreateNew : String :=
  "\x7b\"decision\":\"PUBLISH\",\"confidence\":0.9,\"entities\":[\x7b\"create\":\x7b\"name\":\"NewCo\",\"type\":\"CORPORATION\"\x7d\x7d]\x7d"

def respPublishE1 : String :=
  "\x7b\"decision\":\"PUBLISH\",\"confidence\":0.9,\"entities\":[\x7b\"entityId\":\"E1\"\x7d]\x7d"

/-! ## Invariance lemmas -/

/-- Entity resolution touches at most the entity table and the id
counter: sources, cards, relationships, intake rows and the audit log
are untouched on every path, including throwing ones. -/
theorem resolveEntities_world_inv (dryRun : Bool) (matched : List MatchedEntity) :
    ∀ (refs : List JVal) (acc : List String) (w : World),
      (resolveEntities dryRun matched refs acc w).2.sources = w.sources ∧
      (resolveEntities dryRun matched refs acc w).2.cards = w.cards ∧
      (resolveEntities dryRun matched refs acc w).2.rels = w.rels ∧
      (resolveEntities dryRun matched refs acc w).2.intake = w.intake ∧
      (resolveEntities dryRun matched refs acc w).2.audit = w.audit := by
  intro refs
  induction refs with
  | nil => intro acc w; simp [resolveEntities]
  | cons ref rest ih =>
    intro acc w
    unfold resolveEntities
    repeat' split
    all_goals first
      | exact ih _ _
      | rfl
      | simpa [createEntity, genId] using ih _ _

/-- In dry-run mode entity resolution performs no write at all: the
world is returned unchanged on every path (the `create` arm is guarded
by `!dryRun`). -/
theorem resolveEntities_dryRun_pure (matched : List MatchedEntity) :
    ∀ (refs : List JVal) (acc : List String) (w : World),
      (resolveEntities true matched refs acc w).2 = w := by
  intro refs
  induction refs with
  | nil => intro acc w; simp [resolveEntities]
  | cons ref rest ih =>
    intro acc w
    unfold resolveEntities
    repeat' split
    all_goals first
      | exact ih _ _
      | rfl
      | simp_all

/-! ## C2, C10 and the counterexample theorems -/

/-- Claim C2 (failing evaluation): a PUBLISH decision whose only
entity reference is a by-id reference to an id absent from the Entity
Directory is NOT silently dropped: `getEntity` raises, the outer catch
converts it to an ERROR outcome, and the reference's item does not
continue with the remaining references. -/
theorem C2_missing_by_id_reference_is_error :
    baseWorld.entities.find? (fun e => e.entityId = "E404") = none ∧
    (processItem editorOn noFaults sampleItem respMissingEntity "R1" false baseWorld).1.decision
      = RDecision.ERROR ∧
    (processItem editorOn noFaults sampleItem respMissingEntity "R1" false baseWorld).1.reason
      = JVal.str "Entity not found: E404" ∧
    (processItem editorOn noFaults sampleItem respMissingEntity "R1" false baseWorld).2
      = baseWorld := by
  exact ⟨by decide, by decide, rfl, rfl⟩

/-- Claim C10: an execution exists in which the item's result is
ERROR with no `cardId`, although its card was created AND published,
and the source, entity links and relationship were durably written:
here the final `updateIntakeEditorStatus` write throws after a
successful publish, and nothing is rolled back. -/
theorem C10_error_after_successful_publish :
    let plan : FaultPlan := { noFaults with updateIntakeFails := true }
    let out := processItem editorOn plan sampleItem respPublish95 "R1" false baseWorld
    out.1.decision = RDecision.ERROR ∧
    out.1.cardId = none ∧
    out.2.cards.map (fun c => (c.cardId, c.status)) = [("ID1", "PUBLISHED")] ∧
    out.2.cards.map (fun c => c.entityIds) = [["E1", "E2"]] ∧
    out.2.sources.map (fun s => s.sourceId) = ["ID0"] ∧
    out.2.rels.map (fun r => (r.relationshipId, r.status)) = [("ID2", "PUBLISHED")] ∧
    out.2.intake = baseWorld.intake := by
  exact ⟨by decide, by decide, by decide, by decide, by decide, by decide, rfl⟩

/-- Claim C3 (counterexample): an intake item whose decision is
publishable in a real run — a create-variant reference that resolves
to the existing entity `Acme Corp` by name, confidence above
threshold, no duplicate — yields PUBLISH when processed for real, but
in dry-run mode the same item yields SKIP with "No entities could be
resolved", not a simulated PUBLISH: the `create` arm is skipped
entirely in dry-run. -/
theorem C3_dry_run_create_reference_not_publish :
    (processItem editorOn noFaults sampleItem respCreateAcme "R1" false baseWorld).1.decision
      = RDecision.PUBLISH ∧
    (processItem editorOn noFaults sampleItem respCreateAcme "R1" true baseWorld).1.decision
      = RDecision.SKIP ∧
    (processItem editorOn noFaults sampleItem respCreateAcme "R1" true baseWorld).1.reason
      = JVal.str "No entities could be resolved" := by
  exact ⟨by decide, by decide, rfl⟩

/-- Claim C4 (counterexample): on a PUBLISH path that ends in SKIP
because the duplicate check fires, a brand-new entity for a
create-variant reference HAS already been written: entity creation
happens during resolution, before the duplicate check runs. -/
theorem C4_entity_written_before_duplicate_check :
    let dupCard : Card :=
      { cardId := "C9", title := "FTC Fines Acme Corp", claim := "x", summary := JVal.str "",
        category := "other", entityIds := ["E1"], eventDate := "2024-01-01",
        sourceRefs := ["S9"], evidenceStrength := "HIGH", tags := [], status := "PUBLISHED" }
    let w0 : World := { baseWorld with cards := [dupCard] }
    let out := processItem editorOn noFaults sampleItem respCreateNew "R1" false w0
    out.1.decision = RDecision.SKIP ∧
    out.1.reason = JVal.str "Duplicate card detected" ∧
    w0.entities.length = 2 ∧
    out.2.entities.length = 3 ∧
    out.2.entities.map (fun e => e.name) = ["Acme Corp", "FTC", "NewCo"] := by
  exact ⟨by decide, rfl, by decide, by decide, by decide⟩

/-- Claim C7 (counterexample): a response consisting of a valid
top-level JSON decision object followed by trailing text is NOT always
parsed: the `/\{[\s\S]*\}/` span is greedy, so a closing brace in the
trailer extends the span past the first object and `JSON.parse`
rejects it, while the first object alone is perfectly valid. -/
theorem C7_trailing_brace_breaks_parse :
    parseEditorResponse "\x7b\"decision\":\"SKIP\"\x7d \x7b\x7d" = none ∧
    (parseEditorResponse "\x7b\"decision\":\"SKIP\"\x7d").isSome = true := by
  exact ⟨rfl, by decide⟩

/-- Claim C8 (counterexample): a candidate whose title is identical to
an existing published card's title up to whitespace (an internal
double space) with no shared entity is NOT skipped: the code only
lowercases and trims the ends, so internal whitespace differences
defeat the duplicate check and a second card is created. -/
theorem C8_internal_whitespace_defeats_duplicate_check :
    let wsCard : Card :=
      { cardId := "C8", title := "FTC  Fines Acme Corp", claim := "x", summary := JVal.str "",
        category := "other", entityIds := ["E2"], eventDate := "2024-01-01",
        sourceRefs := ["S8"], evidenceStrength := "HIGH", tags := [], status := "PUBLISHED" }
    let w0 : World := { baseWorld with cards := [wsCard] }
    let out := processItem editorOn noFaults sampleItem respPublishE1 "R1" false w0
    dropWs (jsLower wsCard.title) = dropWs (jsLower sampleItem.title) ∧
    out.1.decision = RDecision.PUBLISH ∧
    out.2.cards.length = 2 := by
  exact ⟨by decide, by decide, by decide⟩

/-! ## Helper lemmas shared by the claim theorems -/

/-- The intake write succeeds: no injected fault, and the scanned row
exists. -/
def updateWillSucceed (plan : FaultPlan) (w : World) (intakeId : String) : Prop :=
  plan.updateIntakeFails = false ∧
  (w.intake.find? (fun row => row.intakeId = intakeId)).isSome = true

theorem updateIntakeEditorStatus_fst (plan : FaultPlan) (w : World) (intakeId st : String)
    (d : EditorDecision) (c? s? : Option String) (h : updateWillSucceed plan w intakeId) :
    (updateIntakeEditorStatus plan w intakeId st d c? s?).1 = .ok () := by
  obtain ⟨hf, hrow⟩ := h
  obtain ⟨row, hr⟩ := Option.isSome_iff_exists.mp hrow
  unfold updateIntakeEditorStatus
  rw [hr]
  simp [hf]

/-- The intake write touches only the intake table, on every path. -/
theorem updateIntakeEditorStatus_world (plan : FaultPlan) (w : World) (intakeId st : String)
    (d : EditorDecision) (c? s? : Option String) :
    (updateIntakeEditorStatus plan w intakeId st d c? s?).2.sources = w.sources ∧
    (updateIntakeEditorStatus plan w intakeId st d c? s?).2.cards = w.cards ∧
    (updateIntakeEditorStatus plan w intakeId st d c? s?).2.rels = w.rels ∧
    (updateIntakeEditorStatus plan w intakeId st d c? s?).2.audit = w.audit ∧
    (updateIntakeEditorStatus plan w intakeId st d c? s?).2.entities = w.entities := by
  unfold updateIntakeEditorStatus
  repeat' split
  all_goals simp

theorem runEditorLoop_length (cfg : EditorConfig) (plan : FaultPlan) (runId : String) :
    ∀ (items : List RunItem) (w : World),
      ((runEditorLoop cfg plan runId items w).1).length = items.length := by
  intro items
  induction items with
  | nil => intro w; simp [runEditorLoop]
  | cons ri rest ih => intro w; simp [runEditorLoop, ih]

/-! ## Parsed-response fixtures for the witnesses -/

def rPub79 : EditorResponse :=
  { decision := .PUBLISH, reason := .str "ok", confidence := some ⟨79, 2⟩, category := none,
    entities := .arr [.obj [("entityId", JVal.str "E1")]], relationships := .arr [],
    cardSummary := .str "" }

def rPub80 : EditorResponse :=
  { decision := .PUBLISH, reason := .str "ok", confidence := some ⟨8, 1⟩, category := none,
    entities := .arr [.obj [("entityId", JVal.str "E1")]], relationships := .arr [],
    cardSummary := .str "" }

def rById : EditorResponse :=
  { decision := .PUBLISH, reason := .str "No reason provided", confidence := some ⟨9, 1⟩,
    category := none, entities := .arr [.obj [("entityId", JVal.str "E1")]],
    relationships := .arr [], cardSummary := .str "" }

def rNoEntities : EditorResponse :=
  { decision := .PUBLISH, reason := .str "No reason provided", confidence := some ⟨9, 1⟩,
    category := none, entities := .arr [], relationships := .arr [], cardSummary := .str "" }

def respNoEntities : String := "\x7b\"decision\":\"PUBLISH\",\"confidence\":0.9,\"entities\":[]\x7d"

/-- An already-published card carrying the sample item's exact title. -/
def dupTitleCard : Card :=
  { cardId := "C90", title := "FTC Fines Acme Corp", claim := "x", summary := JVal.str "",
    category := "other", entityIds := ["E9"], eventDate := "2024-01-01",
    sourceRefs := ["S9"], evidenceStrength := "HIGH", tags := [], status := "PUBLISHED" }

def dupWorld : World := { baseWorld with cards := [dupTitleCard] }

/-! ## Claim theorems -/

/-- Claim C1: for every parsed editor response with decision PUBLISH
and confidence strictly below the configured minimum confidence, the
confidence gate rewrites the decision in place to SKIP with a reason
string recording the measured confidence (`toFixed(2)`) and the
threshold, and `processItem`'s outcome is that SKIP with that reason;
a PUBLISH decision whose confidence is not below the threshold — in
particular exactly 0.8 against the default 0.8 — is left unchanged. -/
theorem C1_confidence_gate :
    (∀ (cfg : EditorConfig) (r : EditorResponse) (q : Dec),
       r.decision = Decision.PUBLISH →
       r.confidence = some q →
       decLtb q cfg.minConfidence = true →
       applyConfidenceGate cfg r =
         { r with decision := Decision.SKIP,
                  reason := JVal.str ("Confidence " ++ toFixed2 q ++ " below threshold "
                    ++ jsNumToString cfg.minConfidence) }) ∧
    (∀ (cfg : EditorConfig) (r : EditorResponse),
       decConfLtb r.confidence cfg.minConfidence = false →
       applyConfidenceGate cfg r = r) ∧
    (∀ r : EditorResponse,
       r.confidence = some ⟨8, 1⟩ →
       applyConfidenceGate defaultEditorConfig r = r) ∧
    (∀ (cfg : EditorConfig) (plan : FaultPlan) (item : IntakeItem) (content runId : String)
       (dryRun : Bool) (w : World) (r : EditorResponse) (q : Dec),
       parseEditorResponse content = some r →
       r.decision = Decision.PUBLISH →
       r.confidence = some q →
       decLtb q cfg.minConfidence = true →
       (dryRun = true ∨ updateWillSucceed plan w item.intakeId) →
       (processItem cfg plan item content runId dryRun w).1.decision = RDecision.SKIP ∧
       (processItem cfg plan item content runId dryRun w).1.reason =
         JVal.str ("Confidence " ++ toFixed2 q ++ " below threshold "
           ++ jsNumToString cfg.minConfidence)) := by
  have gate1 : ∀ (cfg : EditorConfig) (r : EditorResponse) (q : Dec),
      r.decision = Decision.PUBLISH → r.confidence = some q →
      decLtb q cfg.minConfidence = true →
      applyConfidenceGate cfg r =
        { r with decision := Decision.SKIP,
                 reason := JVal.str ("Confidence " ++ toFixed2 q ++ " below threshold "
                   ++ jsNumToString cfg.minConfidence) } := by
    intro cfg r q h1 h2 h3
    simp [applyConfidenceGate, h1, h2, h3, decConfLtb, toFixed2Conf]
  refine ⟨gate1, ?_, ?_, ?_⟩
  · intro cfg r h
    simp [applyConfidenceGate, h]
  · intro r h
    have hlt : decConfLtb r.confidence defaultEditorConfig.minConfidence = false := by
      rw [h]; decide
    simp [applyConfidenceGate, hlt]
  · intro cfg plan item content runId dryRun w r q hp h1 h2 h3 hup
    have hg := gate1 cfg r q h1 h2 h3
    have hres : (processItem cfg plan item content runId dryRun w).1
        = skipResult item.intakeId (JVal.str ("Confidence " ++ toFixed2 q ++ " below threshold "
            ++ jsNumToString cfg.minConfidence)) := by
      simp only [processItem]
      rw [hp]
      simp only []
      rw [hg]
      cases dryRun with
      | true => simp
      | false =>
        rcases hup with h' | hus
        · exact absurd h' (by simp)
        · rcases hres2 : updateIntakeEditorStatus plan w item.intakeId "SKIPPED"
            { decision := Decision.SKIP,
              reason := JVal.str ("Confidence " ++ toFixed2 q ++ " below threshold "
                ++ jsNumToString cfg.minConfidence),
              confidence := r.confidence, decidedAt := w.now, runId := runId } none none
            with ⟨e, w1⟩
          have hfst := updateIntakeEditorStatus_fst plan w item.intakeId "SKIPPED"
            { decision := Decision.SKIP,
              reason := JVal.str ("Confidence " ++ toFixed2 q ++ " below threshold "
                ++ jsNumToString cfg.minConfidence),
              confidence := r.confidence, decidedAt := w.now, runId := runId } none none hus
          rw [hres2] at hfst
          cases e with
          | ok u => simp [hres2]
          | error m => simp at hfst
    exact ⟨by rw [hres]; rfl, by rw [hres]; rfl⟩

/-- Witness for C1: against the default 0.8 threshold, a PUBLISH
response with confidence 0.79 is rewritten by `processItem` to SKIP
with the reason "Confidence 0.79 below threshold 0.8", while a PUBLISH
response with confidence exactly 0.8 passes the gate unchanged. -/
theorem C1_confidence_gate_witness :
    parseEditorResponse respPublish79 = some rPub79 ∧
    rPub79.decision = Decision.PUBLISH ∧
    rPub79.confidence = some ⟨79, 2⟩ ∧
    decLtb ⟨79, 2⟩ editorOn.minConfidence = true ∧
    (processItem editorOn noFaults sampleItem respPublish79 "R1" false baseWorld).1.decision
      = RDecision.SKIP ∧
    (processItem editorOn noFaults sampleItem respPublish79 "R1" false baseWorld).1.reason
      = JVal.str ("Confidence " ++ toFixed2 ⟨79, 2⟩ ++ " below threshold "
        ++ jsNumToString editorOn.minConfidence) ∧
    rPub80.confidence = some ⟨8, 1⟩ ∧
    applyConfidenceGate defaultEditorConfig rPub80 = rPub80 :=
  ⟨rfl, rfl, rfl, by decide,
   (C1_confidence_gate.2.2.2 editorOn noFaults sampleItem respPublish79 "R1" false baseWorld
     rPub79 ⟨79, 2⟩ rfl rfl rfl (by decide) (Or.inr ⟨rfl, by decide⟩)).1,
   (C1_confidence_gate.2.2.2 editorOn noFaults sampleItem respPublish79 "R1" false baseWorld
     rPub79 ⟨79, 2⟩ rfl rfl rfl (by decide) (Or.inr ⟨rfl, by decide⟩)).2,
   rfl,
   C1_confidence_gate.2.2.1 rPub80 rfl⟩

/-- Claim C3 (amended): dry-run mode writes nothing whatsoever — the
world is returned unchanged on every path — and an
otherwise-publishable item whose references resolve in dry-run (which
excludes create-variant references, silently ignored there) produces
the simulated PUBLISH result: reason prefixed "[DRY RUN]", the
resolved entity ids, and no card/source/relationship identifiers. -/
theorem C3_dry_run_simulation :
    (∀ (cfg : EditorConfig) (plan : FaultPlan) (item : IntakeItem) (content runId : String)
       (w : World),
       (processItem cfg plan item content runId true w).2 = w) ∧
    (∀ (cfg : EditorConfig) (plan : FaultPlan) (item : IntakeItem) (content runId : String)
       (w w1 : World) (r : EditorResponse) (refs : List JVal) (ids : List String),
       parseEditorResponse content = some r →
       (applyConfidenceGate cfg r).decision = Decision.PUBLISH →
       asIterable (applyConfidenceGate cfg r).entities = .ok refs →
       resolveEntities true (getMatchedEntities w item.suggestedEntities) refs [] w
         = (.ok ids, w1) →
       ids ≠ [] →
       checkForDuplicate w1 item.title ids = false →
       (processItem cfg plan item content runId true w).1 =
         { intakeId := item.intakeId, decision := RDecision.PUBLISH,
           reason := JVal.str ("[DRY RUN] Would publish with " ++ natToStr ids.length
             ++ " entities"),
           cardId := none, entityIds := some ids, relationshipIds := none }) := by
  constructor
  · intro cfg plan item content runId w
    simp only [processItem]
    cases hp : parseEditorResponse content with
    | none => rfl
    | some r =>
      simp only []
      by_cases hskip : (applyConfidenceGate cfg r).decision = Decision.SKIP
      · simp [hskip]
      · cases hit : asIterable (applyConfidenceGate cfg r).entities with
        | error m => simp [hskip, hit]
        | ok refs =>
          rcases hres : resolveEntities true (getMatchedEntities w item.suggestedEntities)
            refs [] w with ⟨e, w1⟩
          have hw1 : w1 = w := by
            have hpure := resolveEntities_dryRun_pure (getMatchedEntities w item.suggestedEntities)
              refs [] w
            rw [hres] at hpure
            exact hpure
          subst hw1
          cases e with
          | error m => simp [hskip, hit, hres]
          | ok ids =>
            by_cases hnil : ids = []
            · simp [hskip, hit, hres, hnil]
            · by_cases hdup : checkForDuplicate w1 item.title ids = true
              · simp [hskip, hit, hres, hnil, hdup]
              · simp [hskip, hit, hres, hnil, hdup]
  · intro cfg plan item content runId w w1 r refs ids hp hgate hiter hres hnil hdup
    have hskip : ((applyConfidenceGate cfg r).decision = Decision.SKIP) = False := by
      rw [hgate]; simp
    simp only [processItem]
    rw [hp]
    simp only [hskip, if_false]
    rw [hiter]
    simp only []
    rw [hres]
    simp only []
    simp [hnil, hdup]

/-- Witness for C3 (amended): in dry-run, a publishable by-id response
leaves the world untouched and reports the simulated PUBLISH with its
one resolved entity and no identifiers. -/
theorem C3_dry_run_simulation_witness :
    parseEditorResponse respPublishE1 = some rById ∧
    (processItem editorOn noFaults sampleItem respPublishE1 "R1" true baseWorld).2
      = baseWorld ∧
    (processItem editorOn noFaults sampleItem respPublishE1 "R1" true baseWorld).1 =
      { intakeId := sampleItem.intakeId, decision := RDecision.PUBLISH,
        reason := JVal.str "[DRY RUN] Would publish with 1 entities",
        cardId := none, entityIds := some ["E1"], relationshipIds := none } :=
  ⟨rfl,
   C3_dry_run_simulation.1 editorOn noFaults sampleItem respPublishE1 "R1" baseWorld,
   C3_dry_run_simulation.2 editorOn noFaults sampleItem respPublishE1 "R1" baseWorld baseWorld
     rById [.obj [("entityId", JVal.str "E1")]] ["E1"] rfl rfl rfl rfl (by decide) (by decide)⟩

/-- Claim C4 (amended): when the duplicate check fires on the PUBLISH
path, no source, card, relationship or audit record has been or will
be written for the item (only the intake row is annotated afterwards,
and entities created during resolution remain) — i.e. the duplicate
check precedes every source/card/relationship/audit write, but not the
create-variant entity writes, which happen during resolution before
the check. -/
theorem C4_duplicate_check_precedes_record_writes :
    ∀ (cfg : EditorConfig) (plan : FaultPlan) (item : IntakeItem) (content runId : String)
      (dryRun : Bool) (w w1 : World) (r : EditorResponse) (refs : List JVal)
      (ids : List String),
      parseEditorResponse content = some r →
      (applyConfidenceGate cfg r).decision = Decision.PUBLISH →
      asIterable (applyConfidenceGate cfg r).entities = .ok refs →
      resolveEntities dryRun (getMatchedEntities w item.suggestedEntities) refs [] w
        = (.ok ids, w1) →
      ids ≠ [] →
      checkForDuplicate w1 item.title ids = true →
      (processItem cfg plan item content runId dryRun w).2.sources = w.sources ∧
      (processItem cfg plan item content runId dryRun w).2.cards = w.cards ∧
      (processItem cfg plan item content runId dryRun w).2.rels = w.rels ∧
      (processItem cfg plan item content runId dryRun w).2.audit = w.audit := by
  intro cfg plan item content runId dryRun w w1 r refs ids hp hgate hiter hres hnil hdup
  have hskip : ((applyConfidenceGate cfg r).decision = Decision.SKIP) = False := by
    rw [hgate]; simp
  have hinv := resolveEntities_world_inv dryRun (getMatchedEntities w item.suggestedEntities)
    refs [] w
  rw [hres] at hinv
  have hnil2 : (ids = []) = False := by simp [hnil]
  have hred : processItem cfg plan item content runId dryRun w =
      (if dryRun then (skipResult item.intakeId (.str "Duplicate card detected"), w1)
       else
         match updateIntakeEditorStatus plan w1 item.intakeId "SKIPPED"
             { decision := Decision.SKIP, reason := JVal.str "Duplicate card detected",
               confidence := (applyConfidenceGate cfg r).confidence, decidedAt := w.now,
               runId := runId } none none with
         | (.ok _, w2) => (skipResult item.intakeId (.str "Duplicate card detected"), w2)
         | (.error msg, w2) => (errorResult item.intakeId msg, w2)) := by
    simp only [processItem]
    rw [hp]
    simp only [hskip, if_false]
    rw [hiter]
    simp only []
    rw [hres]
    simp only [hnil2, if_false]
    rw [hdup]
    simp only [if_true]
  cases dryRun with
  | true =>
    rw [hred]
    simp only [if_true]
    exact ⟨hinv.1, hinv.2.1, hinv.2.2.1, hinv.2.2.2.2⟩
  | false =>
    have hw := updateIntakeEditorStatus_world plan w1 item.intakeId "SKIPPED"
      { decision := Decision.SKIP, reason := JVal.str "Duplicate card detected",
        confidence := (applyConfidenceGate cfg r).confidence, decidedAt := w.now,
        runId := runId } none none
    rcases hu : updateIntakeEditorStatus plan w1 item.intakeId "SKIPPED"
        { decision := Decision.SKIP, reason := JVal.str "Duplicate card detected",
          confidence := (applyConfidenceGate cfg r).confidence, decidedAt := w.now,
          runId := runId } none none with ⟨e, w2⟩
    rw [hu] at hw
    rw [hred]
    simp only [Bool.false_eq_true, if_false]
    rw [hu]
    cases e with
    | error m =>
      simp only []
      exact ⟨by rw [hw.1, hinv.1], by rw [hw.2.1, hinv.2.1], by rw [hw.2.2.1, hinv.2.2.1],
        by rw [hw.2.2.2.1, hinv.2.2.2.2]⟩
    | ok u =>
      simp only []
      exact ⟨by rw [hw.1, hinv.1], by rw [hw.2.1, hinv.2.1], by rw [hw.2.2.1, hinv.2.2.1],
        by rw [hw.2.2.2.1, hinv.2.2.2.2]⟩

/-- Witness for C4 (amended): with an already-published card carrying
the same title, the duplicate check fires and the run leaves the
source, card, relationship and audit tables exactly as they were. -/
theorem C4_duplicate_check_witness :
    parseEditorResponse respPublishE1 = some rById ∧
    checkForDuplicate dupWorld sampleItem.title ["E1"] = true ∧
    (processItem editorOn noFaults sampleItem respPublishE1 "R1" false dupWorld).2.sources
      = dupWorld.sources ∧
    (processItem editorOn noFaults sampleItem respPublishE1 "R1" false dupWorld).2.cards
      = dupWorld.cards ∧
    (processItem editorOn noFaults sampleItem respPublishE1 "R1" false dupWorld).2.rels
      = dupWorld.rels ∧
    (processItem editorOn noFaults sampleItem respPublishE1 "R1" false dupWorld).2.audit
      = dupWorld.audit :=
  ⟨rfl, by decide,
   (C4_duplicate_check_precedes_record_writes editorOn noFaults sampleItem respPublishE1 "R1"
     false dupWorld dupWorld rById [.obj [("entityId", JVal.str "E1")]] ["E1"]
     rfl rfl rfl rfl (by decide) (by decide)).1,
   (C4_duplicate_check_precedes_record_writes editorOn noFaults sampleItem respPublishE1 "R1"
     false dupWorld dupWorld rById [.obj [("entityId", JVal.str "E1")]] ["E1"]
     rfl rfl rfl rfl (by decide) (by decide)).2.1,
   (C4_duplicate_check_precedes_record_writes editorOn noFaults sampleItem respPublishE1 "R1"
     false dupWorld dupWorld rById [.obj [("entityId", JVal.str "E1")]] ["E1"]
     rfl rfl rfl rfl (by decide) (by decide)).2.2.1,
   (C4_duplicate_check_precedes_record_writes editorOn noFaults sampleItem respPublishE1 "R1"
     false dupWorld dupWorld rById [.obj [("entityId", JVal.str "E1")]] ["E1"]
     rfl rfl rfl rfl (by decide) (by decide)).2.2.2⟩

/-- Claim C5: a PUBLISH decision whose entity resolution yields zero
identifiers ends in SKIP with reason exactly "No entities could be
resolved", and no source, card or relationship is created for the
item. -/
theorem C5_zero_entities_forces_skip :
    ∀ (cfg : EditorConfig) (plan : FaultPlan) (item : IntakeItem) (content runId : String)
      (dryRun : Bool) (w w1 : World) (r : EditorResponse) (refs : List JVal),
      parseEditorResponse content = some r →
      (applyConfidenceGate cfg r).decision = Decision.PUBLISH →
      asIterable (applyConfidenceGate cfg r).entities = .ok refs →
      resolveEntities dryRun (getMatchedEntities w item.suggestedEntities) refs [] w
        = (.ok [], w1) →
      (dryRun = true ∨ updateWillSucceed plan w1 item.intakeId) →
      (processItem cfg plan item content runId dryRun w).1.decision = RDecision.SKIP ∧
      (processItem cfg plan item content runId dryRun w).1.reason
        = JVal.str "No entities could be resolved" ∧
      (processItem cfg plan item content runId dryRun w).2.sources = w.sources ∧
      (processItem cfg plan item content runId dryRun w).2.cards = w.cards ∧
      (processItem cfg plan item content runId dryRun w).2.rels = w.rels := by
  intro cfg plan item content runId dryRun w w1 r refs hp hgate hiter hres hup
  have hpub : ((applyConfidenceGate cfg r).decision = Decision.SKIP) = False := by
    rw [hgate]; simp
  have hinv := resolveEntities_world_inv dryRun (getMatchedEntities w item.suggestedEntities)
    refs [] w
  rw [hres] at hinv
  have hred : processItem cfg plan item content runId dryRun w =
      (if dryRun then (skipResult item.intakeId (.str "No entities could be resolved"), w1)
       else
         match updateIntakeEditorStatus plan w1 item.intakeId "SKIPPED"
             { decision := Decision.SKIP, reason := JVal.str "No entities could be resolved",
               confidence := (applyConfidenceGate cfg r).confidence, decidedAt := w.now,
               runId := runId } none none with
         | (.ok _, w2) => (skipResult item.intakeId (.str "No entities could be resolved"), w2)
         | (.error msg, w2) => (errorResult item.intakeId msg, w2)) := by
    simp only [processItem]
    rw [hp]
    simp only [hpub, if_false]
    rw [hiter]
    simp only []
    rw [hres]
    simp only []
    rfl
  cases dryRun with
  | true =>
    rw [hred]
    simp only [if_true]
    exact ⟨rfl, rfl, hinv.1, hinv.2.1, hinv.2.2.1⟩
  | false =>
    rcases hup with h' | hus
    · exact absurd h' (by simp)
    · have hw := updateIntakeEditorStatus_world plan w1 item.intakeId "SKIPPED"
        { decision := Decision.SKIP, reason := JVal.str "No entities could be resolved",
          confidence := (applyConfidenceGate cfg r).confidence, decidedAt := w.now,
          runId := runId } none none
      have hfst := updateIntakeEditorStatus_fst plan w1 item.intakeId "SKIPPED"
        { decision := Decision.SKIP, reason := JVal.str "No entities could be resolved",
          confidence := (applyConfidenceGate cfg r).confidence, decidedAt := w.now,
          runId := runId } none none hus
      rcases hu : updateIntakeEditorStatus plan w1 item.intakeId "SKIPPED"
          { decision := Decision.SKIP, reason := JVal.str "No entities could be resolved",
            confidence := (applyConfidenceGate cfg r).confidence, decidedAt := w.now,
            runId := runId } none none with ⟨e, w2⟩
      rw [hu] at hfst hw
      cases e with
      | error m => simp at hfst
      | ok u =>
        rw [hred]
        simp only [Bool.false_eq_true, if_false]
        rw [hu]
        simp only []
        exact ⟨rfl, rfl, by rw [hw.1, hinv.1], by rw [hw.2.1, hinv.2.1],
          by rw [hw.2.2.1, hinv.2.2.1]⟩

/-- Witness for C5: a PUBLISH response with an empty entity list is
forced to SKIP with the exact reason and writes no source, card or
relationship. -/
theorem C5_zero_entities_witness :
    parseEditorResponse respNoEntities = some rNoEntities ∧
    (processItem editorOn noFaults sampleItem respNoEntities "R1" false baseWorld).1.decision
      = RDecision.SKIP ∧
    (processItem editorOn noFaults sampleItem respNoEntities "R1" false baseWorld).1.reason
      = JVal.str "No entities could be resolved" ∧
    (processItem editorOn noFaults sampleItem respNoEntities "R1" false baseWorld).2.sources
      = baseWorld.sources ∧
    (processItem editorOn noFaults sampleItem respNoEntities "R1" false baseWorld).2.cards
      = baseWorld.cards :=
  ⟨rfl,
   (C5_zero_entities_forces_skip editorOn noFaults sampleItem respNoEntities "R1" false
     baseWorld baseWorld rNoEntities [] rfl rfl rfl rfl (Or.inr ⟨rfl, by decide⟩)).1,
   (C5_zero_entities_forces_skip editorOn noFaults sampleItem respNoEntities "R1" false
     baseWorld baseWorld rNoEntities [] rfl rfl rfl rfl (Or.inr ⟨rfl, by decide⟩)).2.1,
   (C5_zero_entities_forces_skip editorOn noFaults sampleItem respNoEntities "R1" false
     baseWorld baseWorld rNoEntities [] rfl rfl rfl rfl (Or.inr ⟨rfl, by decide⟩)).2.2.1,
   (C5_zero_entities_forces_skip editorOn noFaults sampleItem respNoEntities "R1" false
     baseWorld baseWorld rNoEntities [] rfl rfl rfl rfl (Or.inr ⟨rfl, by decide⟩)).2.2.2.1⟩

/-- Claim C6: every failure mode of response validation yields `none`
— no `{...}` span, a span `JSON.parse` rejects, or a `decision` field
that is missing or not the string PUBLISH/SKIP — never a default
PUBLISH object; and `processItem` reports a failed parse as an ERROR
outcome (not SKIP). -/
theorem C6_invalid_response_never_default_publish :
    (∀ content : String,
       firstJsonSpan (preprocessResponse content).toList = none →
       parseEditorResponse content = none) ∧
    (∀ (content : String) (span : List Char),
       firstJsonSpan (preprocessResponse content).toList = some span →
       jsonParse ⟨span⟩ = none →
       parseEditorResponse content = none) ∧
    (∀ (content : String) (span : List Char) (parsed : JVal),
       firstJsonSpan (preprocessResponse content).toList = some span →
       jsonParse ⟨span⟩ = some parsed →
       objGet parsed "decision" ≠ some (JVal.str "PUBLISH") →
       objGet parsed "decision" ≠ some (JVal.str "SKIP") →
       parseEditorResponse content = none) ∧
    (∀ (cfg : EditorConfig) (plan : FaultPlan) (item : IntakeItem) (content runId : String)
       (dryRun : Bool) (w : World),
       parseEditorResponse content = none →
       (processItem cfg plan item content runId dryRun w).1
         = errorResult item.intakeId "Failed to parse editor response" ∧
       (processItem cfg plan item content runId dryRun w).1.decision ≠ RDecision.SKIP) := by
  refine ⟨?_, ?_, ?_, ?_⟩
  · intro content h
    simp only [parseEditorResponse]
    rw [h]
  · intro content span h1 h2
    simp only [parseEditorResponse]
    rw [h1]
    simp only []
    rw [h2]
  · intro content span parsed h1 h2 h3 h4
    simp only [parseEditorResponse]
    rw [h1]
    simp only []
    rw [h2]
    cases hd : objGet parsed "decision" with
    | none => simp [hd]
    | some v =>
      cases v with
      | str s =>
        have hs1 : s ≠ "PUBLISH" := by rintro rfl; exact h3 hd
        have hs2 : s ≠ "SKIP" := by rintro rfl; exact h4 hd
        simp [hd, hs1, hs2]
      | null => simp [hd]
      | bool b => simp [hd]
      | num d => simp [hd]
      | arr xs => simp [hd]
      | obj kvs => simp [hd]
  · intro cfg plan item content runId dryRun w h
    have h1 : (processItem cfg plan item content runId dryRun w).1
        = errorResult item.intakeId "Failed to parse editor response" := by
      simp only [processItem]
      rw [h]
    exact ⟨h1, by rw [h1]; simp [errorResult]⟩

/-- Witness for C6: a braceless response, an unparseable span, a
response with an unrecognised decision all yield `none`, and the
braceless response's item outcome is the parse-failure ERROR. -/
theorem C6_invalid_response_witness :
    parseEditorResponse "no json here" = none ∧
    parseEditorResponse "\x7boops\x7d" = none ∧
    parseEditorResponse "\x7b\"decision\":\"MAYBE\"\x7d" = none ∧
    (processItem editorOn noFaults sampleItem "no json here" "R1" false baseWorld).1
      = errorResult sampleItem.intakeId "Failed to parse editor response" :=
  ⟨C6_invalid_response_never_default_publish.1 "no json here" rfl,
   C6_invalid_response_never_default_publish.2.1 "\x7boops\x7d" "\x7boops\x7d".toList rfl rfl,
   C6_invalid_response_never_default_publish.2.2.1 "\x7b\"decision\":\"MAYBE\"\x7d"
     "\x7b\"decision\":\"MAYBE\"\x7d".toList (JVal.obj [("decision", JVal.str "MAYBE")]) rfl rfl
     (by show some (JVal.str "MAYBE") ≠ some (JVal.str "PUBLISH"); simp)
     (by show some (JVal.str "MAYBE") ≠ some (JVal.str "SKIP"); simp),
   (C6_invalid_response_never_default_publish.2.2.2 editorOn noFaults sampleItem
     "no json here" "R1" false baseWorld
     (C6_invalid_response_never_default_publish.1 "no json here" rfl)).1⟩

/-- Claim C7 (amended): trailing text IS tolerated whenever it
contains no closing brace: if the response is a valid top-level JSON
object (starting with `{`, ending with `}`) carrying a valid decision
string, followed by any brace-free trailer, the greedy span stops at
the object's own final `}` and the response parses successfully. -/
theorem C7_braceless_trailer_parses :
    ∀ (s t : String) (kvs : List (String × JVal)) (d : String),
      s.toList.head? = some '{' →
      s.toList.getLast? = some '}' →
      2 ≤ s.toList.length →
      (∀ c ∈ t.toList, c ≠ '}') →
      jsonParse s = some (JVal.obj kvs) →
      lookupLast kvs "decision" = some (JVal.str d) →
      (d = "PUBLISH" ∨ d = "SKIP") →
      (parseEditorResponse (s ++ t)).isSome = true := by
  intro s t kvs d h1 h2 hlen h3 hj hd hdv
  obtain ⟨sl', hsl⟩ : ∃ sl', s.toList = '{' :: sl' := by
    cases hcase : s.toList with
    | nil => rw [hcase] at h1; simp at h1
    | cons a l =>
      rw [hcase] at h1
      simp at h1
      exact ⟨l, by rw [h1]⟩
  obtain ⟨sr', hsr⟩ : ∃ sr', s.toList.reverse = '}' :: sr' := by
    have hh : s.toList.reverse.head? = some '}' := by rw [List.head?_reverse]; exact h2
    cases hcase : s.toList.reverse with
    | nil => rw [hcase] at hh; simp at hh
    | cons a l =>
      rw [hcase] at hh
      simp at hh
      exact ⟨l, by rw [hh]⟩
  have hrtmem : ∀ c ∈ (t.toList.reverse.dropWhile jsWs).reverse, c ≠ '}' := by
    intro c hc
    exact h3 c (List.mem_reverse.mp (List.dropWhile_subset jsWs (List.mem_reverse.mp hc)))
  have htrim : jsTrimList (s.toList ++ t.toList)
      = s.toList ++ (t.toList.reverse.dropWhile jsWs).reverse := by
    unfold jsTrimList
    have e1 : (s.toList ++ t.toList).dropWhile jsWs = s.toList ++ t.toList := by
      rw [hsl]
      simp [List.dropWhile_cons, jsWs]
    rw [e1, List.reverse_append, List.dropWhile_append]
    have e3 : s.toList.reverse.dropWhile jsWs = s.toList.reverse := by
      rw [hsr]
      simp [List.dropWhile_cons, jsWs]
    split
    · rename_i hemp
      rw [List.isEmpty_iff] at hemp
      rw [e3, hemp]
      simp
    · rw [List.reverse_append, List.reverse_reverse]
  have e0 : (s ++ t).toList = s.toList ++ t.toList := String.data_append s t
  have hpre : preprocessResponse (s ++ t)
      = (⟨s.toList ++ (t.toList.reverse.dropWhile jsWs).reverse⟩ : String) := by
    have e2 : jsTrim (s ++ t)
        = (⟨s.toList ++ (t.toList.reverse.dropWhile jsWs).reverse⟩ : String) := by
      unfold jsTrim
      rw [e0, htrim]
    simp only [preprocessResponse]
    rw [e2]
    have hcond : ((⟨s.toList ++ (t.toList.reverse.dropWhile jsWs).reverse⟩ : String).toList.take 3
        = "```".toList) = False := by
      have e4 : (⟨s.toList ++ (t.toList.reverse.dropWhile jsWs).reverse⟩ : String).toList
          = s.toList ++ (t.toList.reverse.dropWhile jsWs).reverse := rfl
      rw [e4, hsl]
      simp
    simp only [hcond, if_false]
  have hspan : firstJsonSpan (s.toList ++ (t.toList.reverse.dropWhile jsWs).reverse)
      = some s.toList := by
    simp only [firstJsonSpan]
    have hi : (s.toList ++ (t.toList.reverse.dropWhile jsWs).reverse).findIdx
        (fun c => c = '{') = 0 := by
      rw [hsl]
      simp [List.findIdx_cons]
    have hridx : (s.toList ++ (t.toList.reverse.dropWhile jsWs).reverse).reverse.findIdx
        (fun c => c = '}') = (t.toList.reverse.dropWhile jsWs).reverse.length := by
      rw [List.reverse_append, List.findIdx_append]
      have h0 : (t.toList.reverse.dropWhile jsWs).reverse.reverse.findIdx (fun c => c = '}')
          = (t.toList.reverse.dropWhile jsWs).reverse.reverse.length :=
        List.findIdx_eq_length_of_false (by
          intro x hx
          simp only [decide_eq_false_iff_not]
          exact hrtmem x (List.mem_reverse.mp hx))
      rw [h0]
      simp only [Nat.lt_irrefl, if_false]
      rw [hsr]
      simp [List.findIdx_cons]
    rw [hi, hridx]
    rw [List.length_append]
    have hcond : 0 < s.toList.length + (t.toList.reverse.dropWhile jsWs).reverse.length ∧
        (t.toList.reverse.dropWhile jsWs).reverse.length
          < s.toList.length + (t.toList.reverse.dropWhile jsWs).reverse.length ∧
        0 < s.toList.length + (t.toList.reverse.dropWhile jsWs).reverse.length - 1
          - (t.toList.reverse.dropWhile jsWs).reverse.length := by
      omega
    rw [if_pos hcond]
    rw [List.drop_zero]
    have hn : s.toList.length + (t.toList.reverse.dropWhile jsWs).reverse.length - 1
        - (t.toList.reverse.dropWhile jsWs).reverse.length - 0 + 1 = s.toList.length := by
      omega
    rw [hn]
    rw [List.take_left]
  simp only [parseEditorResponse]
  rw [hpre]
  have e5 : (⟨s.toList ++ (t.toList.reverse.dropWhile jsWs).reverse⟩ : String).toList
      = s.toList ++ (t.toList.reverse.dropWhile jsWs).reverse := rfl
  rw [e5, hspan]
  have e6 : (⟨s.toList⟩ : String) = s := rfl
  simp only []
  rw [e6, hj]
  simp only [objGet]
  rw [hd]
  simp [hdv]

/-- Witness for C7 (amended): a valid SKIP object followed by a
brace-free sentence parses successfully. -/
theorem C7_braceless_trailer_witness :
    (parseEditorResponse ("\x7b\"decision\":\"SKIP\"\x7d" ++ " End of response.")).isSome = true :=
  C7_braceless_trailer_parses "\x7b\"decision\":\"SKIP\"\x7d" " End of response."
    [("decision", JVal.str "SKIP")] "SKIP" rfl rfl (by decide) (by decide) rfl rfl (Or.inr rfl)

/-- Claim C8 (amended): the duplicate check fires on title identity up
to lowercasing and END-trimming only: whenever some card among the 100
most recent has a title equal to the candidate's after `toLowerCase`
and `trim`, the PUBLISH path ends in SKIP "Duplicate card detected"
and no card is written. -/
theorem C8_trimmed_title_duplicate_forces_skip :
    ∀ (cfg : EditorConfig) (plan : FaultPlan) (item : IntakeItem) (content runId : String)
      (dryRun : Bool) (w w1 : World) (r : EditorResponse) (refs : List JVal)
      (ids : List String) (c : Card),
      parseEditorResponse content = some r →
      (applyConfidenceGate cfg r).decision = Decision.PUBLISH →
      asIterable (applyConfidenceGate cfg r).entities = .ok refs →
      resolveEntities dryRun (getMatchedEntities w item.suggestedEntities) refs [] w
        = (.ok ids, w1) →
      ids ≠ [] →
      c ∈ listCards w1 100 →
      jsTrim (jsLower c.title) = jsTrim (jsLower item.title) →
      (dryRun = true ∨ updateWillSucceed plan w1 item.intakeId) →
      (processItem cfg plan item content runId dryRun w).1.decision = RDecision.SKIP ∧
      (processItem cfg plan item content runId dryRun w).1.reason
        = JVal.str "Duplicate card detected" ∧
      (processItem cfg plan item content runId dryRun w).2.cards = w.cards := by
  intro cfg plan item content runId dryRun w w1 r refs ids c hp hgate hiter hres hnil hc htitle hup
  have hdup : checkForDuplicate w1 item.title ids = true := by
    unfold checkForDuplicate
    rw [List.any_eq_true]
    exact ⟨c, hc, by simp [htitle]⟩
  have hskip : ((applyConfidenceGate cfg r).decision = Decision.SKIP) = False := by
    rw [hgate]; simp
  have hinv := resolveEntities_world_inv dryRun (getMatchedEntities w item.suggestedEntities)
    refs [] w
  rw [hres] at hinv
  have hnil2 : (ids = []) = False := by simp [hnil]
  have hred : processItem cfg plan item content runId dryRun w =
      (if dryRun then (skipResult item.intakeId (.str "Duplicate card detected"), w1)
       else
         match updateIntakeEditorStatus plan w1 item.intakeId "SKIPPED"
             { decision := Decision.SKIP, reason := JVal.str "Duplicate card detected",
               confidence := (applyConfidenceGate cfg r).confidence, decidedAt := w.now,
               runId := runId } none none with
         | (.ok _, w2) => (skipResult item.intakeId (.str "Duplicate card detected"), w2)
         | (.error msg, w2) => (errorResult item.intakeId msg, w2)) := by
    simp only [processItem]
    rw [hp]
    simp only [hskip, if_false]
    rw [hiter]
    simp only []
    rw [hres]
    simp only [hnil2, if_false]
    rw [hdup]
    simp only [if_true]
  cases dryRun with
  | true =>
    rw [hred]
    simp only [if_true]
    exact ⟨rfl, rfl, hinv.2.1⟩
  | false =>
    rcases hup with h' | hus
    · exact absurd h' (by simp)
    · have hw := updateIntakeEditorStatus_world plan w1 item.intakeId "SKIPPED"
        { decision := Decision.SKIP, reason := JVal.str "Duplicate card detected",
          confidence := (applyConfidenceGate cfg r).confidence, decidedAt := w.now,
          runId := runId } none none
      have hfst := updateIntakeEditorStatus_fst plan w1 item.intakeId "SKIPPED"
        { decision := Decision.SKIP, reason := JVal.str "Duplicate card detected",
          confidence := (applyConfidenceGate cfg r).confidence, decidedAt := w.now,
          runId := runId } none none hus
      rcases hu : updateIntakeEditorStatus plan w1 item.intakeId "SKIPPED"
          { decision := Decision.SKIP, reason := JVal.str "Duplicate card detected",
            confidence := (applyConfidenceGate cfg r).confidence, decidedAt := w.now,
            runId := runId } none none with ⟨e, w2⟩
      rw [hu] at hfst hw
      cases e with
      | error m => simp at hfst
      | ok u =>
        rw [hred]
        simp only [Bool.false_eq_true, if_false]
        rw [hu]
        simp only []
        exact ⟨rfl, rfl, by rw [hw.2.1, hinv.2.1]⟩

/-- Witness for C8 (amended): a published card whose title equals the
candidate's after lowercasing and end-trimming makes the live run end
in the duplicate SKIP with the card table unchanged. -/
theorem C8_trimmed_title_witness :
    jsTrim (jsLower dupTitleCard.title) = jsTrim (jsLower sampleItem.title) ∧
    (processItem editorOn noFaults sampleItem respPublishE1 "R1" false dupWorld).1.decision
      = RDecision.SKIP ∧
    (processItem editorOn noFaults sampleItem respPublishE1 "R1" false dupWorld).1.reason
      = JVal.str "Duplicate card detected" ∧
    (processItem editorOn noFaults sampleItem respPublishE1 "R1" false dupWorld).2.cards
      = dupWorld.cards :=
  ⟨rfl,
   C8_trimmed_title_duplicate_forces_skip editorOn noFaults sampleItem respPublishE1 "R1"
     false dupWorld dupWorld rById [.obj [("entityId", JVal.str "E1")]] ["E1"] dupTitleCard
     rfl rfl rfl rfl (by decide)
     (by
       have h : listCards dupWorld 100 = [dupTitleCard] := rfl
       rw [h]
       exact List.mem_singleton.mpr rfl)
     rfl (Or.inr ⟨rfl, by decide⟩)⟩

/-- Claim C9: with the kill switch on, every eligible item contributes
exactly one result, `processed` counts the whole batch, and the
scheduler handler marks the run failed exactly when the batch was
non-empty and every single item ended in ERROR. -/
theorem C9_run_failed_iff_all_items_error :
    ∀ (cfg : EditorConfig) (plan : FaultPlan) (runId : String) (items : List RunItem) (w : World),
      cfg.enabled = true →
      ((runEditor cfg plan runId items w).1.results.length = items.length ∧
       (runEditor cfg plan runId items w).1.processed = items.length ∧
       (handlerMarksRunFailed (runEditor cfg plan runId items w).1 ↔
         ((runEditor cfg plan runId items w).1.results ≠ [] ∧
          ∀ res ∈ (runEditor cfg plan runId items w).1.results,
            res.decision = RDecision.ERROR))) := by
  intro cfg plan runId items w hen
  rcases hl : runEditorLoop cfg plan runId items w with ⟨results, w2⟩
  have hlen : results.length = items.length := by
    have hx := runEditorLoop_length cfg plan runId items w
    rw [hl] at hx
    exact hx
  simp only [runEditor, hen, if_true, hl]
  refine ⟨hlen, trivial, ?_⟩
  unfold handlerMarksRunFailed
  simp only []
  constructor
  · rintro ⟨hpos, heq⟩
    have hall : ∀ res ∈ results, (res.decision == RDecision.ERROR) = true :=
      List.countP_eq_length.mp (heq.trans hlen.symm)
    refine ⟨?_, fun res hres => by simpa using hall res hres⟩
    intro hemptyr
    rw [hemptyr] at hpos
    simp at hpos
  · rintro ⟨hne, hall⟩
    have hcount : results.countP (fun r => r.decision == RDecision.ERROR) = results.length :=
      List.countP_eq_length.mpr (fun res hres => by simp [hall res hres])
    constructor
    · rw [hcount, hlen]
      have hnz : items.length ≠ 0 := by
        rw [← hlen]
        simpa using fun h => hne (List.length_eq_zero.mp h)
      omega
    · rw [hcount, hlen]

/-- Witness for C9: a one-item batch whose only response fails to
parse ends with one result, one processed item, and the failure
criterion holding (the single result is an ERROR). -/
theorem C9_run_failed_witness :
    (runEditor editorOn noFaults "R1" [{ item := sampleItem, response := "no json" }]
        baseWorld).1.results.length = 1 ∧
    (runEditor editorOn noFaults "R1" [{ item := sampleItem, response := "no json" }]
        baseWorld).1.processed = 1 ∧
    (handlerMarksRunFailed (runEditor editorOn noFaults "R1"
        [{ item := sampleItem, response := "no json" }] baseWorld).1 ↔
      ((runEditor editorOn noFaults "R1" [{ item := sampleItem, response := "no json" }]
          baseWorld).1.results ≠ [] ∧
       ∀ res ∈ (runEditor editorOn noFaults "R1"
           [{ item := sampleItem, response := "no json" }] baseWorld).1.results,
         res.decision = RDecision.ERROR)) :=
  C9_run_failed_iff_all_items_error editorOn noFaults "R1"
    [{ item := sampleItem, response := "no json" }] baseWorld rfl
